import Mathlib

set_option linter.unusedTactic false
set_option linter.unusedVariables false

/-!
# godpu: storage back-end exerciser and the inventory client mock

A shallow embedding of `storage/backend.go` (`DoBackend` and the three lifecycle
functions) and of `mocks/InventorySvcClient.go` (`InventoryGet`, `Return`,
`RunAndReturn`).

Modelling conventions.

* A Go pointer is an `Option`; `nil` is `none`.  Reading a field through a `nil`
  pointer is a run-time fault, recorded as `Outcome.panicked`.
* A Go result pair `(resp, err)` is a Lean pair `Option resp × Option GoError`.
* A remote client is an interface value, so its behaviour is arbitrary.  Each
  method is a function of the calls recorded so far, the context and the request.
  Quantifying over these functions covers every run of every implementation.
* Every remote call is appended to a call record (`Run.calls`) before its result
  is inspected.  `log.Printf` output is not modelled; the evaluation of its
  arguments is, because that is where a `nil` pointer can be read.
-/

namespace Godpu

/-! ## Common values -/

/-- A Go `error` value that is not nil. -/
structure GoError where
  msg : String
  deriving DecidableEq, Repr

/-- The caller's `context.Context`.  Only its identity and its cancellation are
modelled: `cancelAfter = some n` says that the caller cancels the context once `n`
remote calls have completed (`some 0`: cancelled before the first call). -/
structure Context where
  id : Nat
  cancelAfter : Option Nat
  deriving DecidableEq, Repr

/-- What `ctx.Err()` would report when `clock` remote calls have completed. -/
def Context.Err (ctx : Context) (clock : Nat) : Option GoError :=
  match ctx.cancelAfter with
  | some n => if n ≤ clock then some ⟨"context canceled"⟩ else none
  | none => none

/-- The message `pc.ObjectKey`. -/
structure ObjectKey where
  Value : String
  deriving DecidableEq, Repr

/-- The message `emptypb.Empty`. -/
structure Empty where
  deriving DecidableEq, Repr

/-- A `net.IP`, represented by the text its `String()` method yields. -/
structure IP where
  text : String
  deriving DecidableEq, Repr

/-- The method `IP.String`. -/
def IP.String (ip : IP) : String := ip.text

/-! ## Messages of the three services

Only the fields the program sets or reads are listed; the generated message types
are not part of the repository. -/

abbrev NvmeTransportType := String
abbrev NvmeAddressFamily := String

def NvmeTransportType_NVME_TRANSPORT_TCP : NvmeTransportType := "NVME_TRANSPORT_TCP"
def NvmeAddressFamily_NVMF_ADRFAM_IPV4 : NvmeAddressFamily := "NVMF_ADRFAM_IPV4"

structure NVMfRemoteController where
  Id : Option ObjectKey := none
  Trtype : NvmeTransportType := ""
  Adrfam : NvmeAddressFamily := ""
  Traddr : String := ""
  Trsvcid : Int := 0
  Subnqn : String := ""
  Hostnqn : String := ""
  deriving DecidableEq, Repr

structure CreateNVMfRemoteControllerRequest where
  NvMfRemoteController : Option NVMfRemoteController := none
  deriving DecidableEq, Repr

structure NVMfRemoteControllerResetRequest where
  Id : Option ObjectKey := none
  deriving DecidableEq, Repr

structure ListNVMfRemoteControllersRequest where
  PageSize : Int := 0
  PageToken : String := ""
  deriving DecidableEq, Repr

structure ListNVMfRemoteControllersResponse where
  Ctrl : List NVMfRemoteController := []
  deriving DecidableEq, Repr

structure GetNVMfRemoteControllerRequest where
  Name : String := ""
  deriving DecidableEq, Repr

structure NVMfRemoteControllerStatsRequest where
  Id : Option ObjectKey := none
  deriving DecidableEq, Repr

structure NVMfRemoteControllerStatsResponse where
  Stats : String := ""
  deriving DecidableEq, Repr

structure DeleteNVMfRemoteControllerRequest where
  Name : String := ""
  deriving DecidableEq, Repr

structure NullDebug where
  Handle : Option ObjectKey := none
  deriving DecidableEq, Repr

structure CreateNullDebugRequest where
  NullDebug : Option NullDebug := none
  deriving DecidableEq, Repr

structure UpdateNullDebugRequest where
  NullDebug : Option NullDebug := none
  deriving DecidableEq, Repr

structure ListNullDebugsRequest where
  PageSize : Int := 0
  PageToken : String := ""
  deriving DecidableEq, Repr

structure ListNullDebugsResponse where
  NullDebugs : List NullDebug := []
  deriving DecidableEq, Repr

structure GetNullDebugRequest where
  Name : String := ""
  deriving DecidableEq, Repr

structure NullDebugStatsRequest where
  Handle : Option ObjectKey := none
  deriving DecidableEq, Repr

structure NullDebugStatsResponse where
  Stats : String := ""
  deriving DecidableEq, Repr

structure DeleteNullDebugRequest where
  Name : String := ""
  deriving DecidableEq, Repr

structure AioController where
  Handle : Option ObjectKey := none
  Filename : String := ""
  deriving DecidableEq, Repr

structure CreateAioControllerRequest where
  AioController : Option AioController := none
  deriving DecidableEq, Repr

structure UpdateAioControllerRequest where
  AioController : Option AioController := none
  deriving DecidableEq, Repr

structure ListAioControllersRequest where
  PageSize : Int := 0
  PageToken : String := ""
  deriving DecidableEq, Repr

structure ListAioControllersResponse where
  AioControllers : List AioController := []
  deriving DecidableEq, Repr

structure GetAioControllerRequest where
  Name : String := ""
  deriving DecidableEq, Repr

structure AioControllerStatsRequest where
  Handle : Option ObjectKey := none
  deriving DecidableEq, Repr

structure AioControllerStatsResponse where
  Stats : String := ""
  deriving DecidableEq, Repr

structure DeleteAioControllerRequest where
  Name : String := ""
  deriving DecidableEq, Repr

/-! ## Remote calls and their record -/

/-- A request sent to one of the three services, tagged with the method called. -/
inductive Request where
  | CreateNVMfRemoteController (r : CreateNVMfRemoteControllerRequest)
  | NVMfRemoteControllerReset (r : NVMfRemoteControllerResetRequest)
  | ListNVMfRemoteControllers (r : ListNVMfRemoteControllersRequest)
  | GetNVMfRemoteController (r : GetNVMfRemoteControllerRequest)
  | NVMfRemoteControllerStats (r : NVMfRemoteControllerStatsRequest)
  | DeleteNVMfRemoteController (r : DeleteNVMfRemoteControllerRequest)
  | CreateNullDebug (r : CreateNullDebugRequest)
  | UpdateNullDebug (r : UpdateNullDebugRequest)
  | ListNullDebugs (r : ListNullDebugsRequest)
  | GetNullDebug (r : GetNullDebugRequest)
  | NullDebugStats (r : NullDebugStatsRequest)
  | DeleteNullDebug (r : DeleteNullDebugRequest)
  | CreateAioController (r : CreateAioControllerRequest)
  | UpdateAioController (r : UpdateAioControllerRequest)
  | ListAioControllers (r : ListAioControllersRequest)
  | GetAioController (r : GetAioControllerRequest)
  | AioControllerStats (r : AioControllerStatsRequest)
  | DeleteAioController (r : DeleteAioControllerRequest)
  deriving DecidableEq, Repr

/-- One remote call as the client sees it: the context and the request. -/
structure Call where
  ctx : Context
  req : Request
  deriving DecidableEq, Repr

/-- The result pair `(resp, err)` of a remote call. -/
abbrev Reply (α : Type) := Option α × Option GoError

/-- The interface `pb.NVMfRemoteControllerServiceClient`.  The first argument of
each method is the record of the calls made before this one. -/
structure NVMfRemoteControllerServiceClient where
  CreateNVMfRemoteController :
    List Call → Context → CreateNVMfRemoteControllerRequest → Reply NVMfRemoteController
  NVMfRemoteControllerReset :
    List Call → Context → NVMfRemoteControllerResetRequest → Reply Empty
  ListNVMfRemoteControllers :
    List Call → Context → ListNVMfRemoteControllersRequest →
      Reply ListNVMfRemoteControllersResponse
  GetNVMfRemoteController :
    List Call → Context → GetNVMfRemoteControllerRequest → Reply NVMfRemoteController
  NVMfRemoteControllerStats :
    List Call → Context → NVMfRemoteControllerStatsRequest →
      Reply NVMfRemoteControllerStatsResponse
  DeleteNVMfRemoteController :
    List Call → Context → DeleteNVMfRemoteControllerRequest → Reply Empty

/-- The interface `pb.NullDebugServiceClient`. -/
structure NullDebugServiceClient where
  CreateNullDebug : List Call → Context → CreateNullDebugRequest → Reply NullDebug
  UpdateNullDebug : List Call → Context → UpdateNullDebugRequest → Reply NullDebug
  ListNullDebugs : List Call → Context → ListNullDebugsRequest → Reply ListNullDebugsResponse
  GetNullDebug : List Call → Context → GetNullDebugRequest → Reply NullDebug
  NullDebugStats : List Call → Context → NullDebugStatsRequest → Reply NullDebugStatsResponse
  DeleteNullDebug : List Call → Context → DeleteNullDebugRequest → Reply Empty

/-- The interface `pb.AioControllerServiceClient`. -/
structure AioControllerServiceClient where
  CreateAioController : List Call → Context → CreateAioControllerRequest → Reply AioController
  UpdateAioController : List Call → Context → UpdateAioControllerRequest → Reply AioController
  ListAioControllers :
    List Call → Context → ListAioControllersRequest → Reply ListAioControllersResponse
  GetAioController : List Call → Context → GetAioControllerRequest → Reply AioController
  AioControllerStats :
    List Call → Context → AioControllerStatsRequest → Reply AioControllerStatsResponse
  DeleteAioController : List Call → Context → DeleteAioControllerRequest → Reply Empty

/-- The connection `grpc.ClientConnInterface`, seen through the three clients that
`DoBackend` builds on it. -/
structure ClientConn where
  nvme : NVMfRemoteControllerServiceClient
  null : NullDebugServiceClient
  aio : AioControllerServiceClient

def NewNVMfRemoteControllerServiceClient (conn : ClientConn) :
    NVMfRemoteControllerServiceClient := conn.nvme

def NewNullDebugServiceClient (conn : ClientConn) : NullDebugServiceClient := conn.null

def NewAioControllerServiceClient (conn : ClientConn) : AioControllerServiceClient := conn.aio

/-- The resolver behind `net.LookupIP`: host name to `(addrs, err)`. -/
abbrev Resolver := String → List IP × Option GoError

/-- A run-time fault of the Go program. -/
inductive Fault where
  | nilDereference
  | indexOutOfRange
  deriving DecidableEq, Repr

/-- How a function ended: it returned its `error` result, or it faulted. -/
inductive Outcome where
  | returned (err : Option GoError)
  | panicked (f : Fault)
  deriving DecidableEq, Repr

/-- The observable result of running a function: the remote calls made, in order,
and how the function ended. -/
structure Run where
  calls : List Call
  outcome : Outcome
  deriving DecidableEq, Repr

/-! ## `storage/backend.go`

Each remote call is written as in the source: the request is built, the call is
made and recorded, and the `err` component of the result is tested before anything
else happens. -/

/-- The function `executeNVMfRemoteController`.  `h0` is the record of the calls made
before the function is entered. -/
def executeNVMfRemoteController (LookupIP : Resolver) (ctx : Context)
    (c4 : NVMfRemoteControllerServiceClient) (h0 : List Call) : Run :=
  let addr := LookupIP "spdk"
  match addr.2 with
  | some err => ⟨h0, .returned (some err)⟩
  | none =>
  -- `addr[0].String()` is evaluated while the Create request is built
  match addr.1 with
  | [] => ⟨h0, .panicked .indexOutOfRange⟩
  | addr0 :: _ =>
  let q0 : CreateNVMfRemoteControllerRequest :=
    { NvMfRemoteController := some
        { Id := some { Value := "OpiNvme8" }
          Trtype := NvmeTransportType_NVME_TRANSPORT_TCP
          Adrfam := NvmeAddressFamily_NVMF_ADRFAM_IPV4
          Traddr := addr0.String
          Trsvcid := 4444
          Subnqn := "nqn.2016-06.io.spdk:cnode1"
          Hostnqn := "nqn.2014-08.org.nvmexpress:uuid:feb98abe-d51f-40c8-b348-2753f3571d3c" } }
  let h1 := h0 ++ [⟨ctx, .CreateNVMfRemoteController q0⟩]
  let rr0 := c4.CreateNVMfRemoteController h0 ctx q0
  match rr0.2 with
  | some err => ⟨h1, .returned (some err)⟩
  | none =>
  let q2 : NVMfRemoteControllerResetRequest := { Id := some { Value := "OpiNvme8" } }
  let h2 := h1 ++ [⟨ctx, .NVMfRemoteControllerReset q2⟩]
  let rr2 := c4.NVMfRemoteControllerReset h1 ctx q2
  match rr2.2 with
  | some err => ⟨h2, .returned (some err)⟩
  | none =>
  let q3 : ListNVMfRemoteControllersRequest := {}
  let h3 := h2 ++ [⟨ctx, .ListNVMfRemoteControllers q3⟩]
  let rr3 := c4.ListNVMfRemoteControllers h2 ctx q3
  match rr3.2 with
  | some err => ⟨h3, .returned (some err)⟩
  | none =>
  let q4 : GetNVMfRemoteControllerRequest := { Name := "OpiNvme8" }
  let h4 := h3 ++ [⟨ctx, .GetNVMfRemoteController q4⟩]
  let rr4 := c4.GetNVMfRemoteController h3 ctx q4
  match rr4.2 with
  | some err => ⟨h4, .returned (some err)⟩
  | none =>
  let q5 : NVMfRemoteControllerStatsRequest := { Id := some { Value := "OpiNvme8" } }
  let h5 := h4 ++ [⟨ctx, .NVMfRemoteControllerStats q5⟩]
  let rr5 := c4.NVMfRemoteControllerStats h4 ctx q5
  match rr5.2 with
  | some err => ⟨h5, .returned (some err)⟩
  | none =>
  let q1 : DeleteNVMfRemoteControllerRequest := { Name := "OpiNvme8" }
  let h6 := h5 ++ [⟨ctx, .DeleteNVMfRemoteController q1⟩]
  let rr1 := c4.DeleteNVMfRemoteController h5 ctx q1
  match rr1.2 with
  | some err => ⟨h6, .returned (some err)⟩
  | none => ⟨h6, .returned none⟩

/-- The function `executeNullDebug`. -/
def executeNullDebug (ctx : Context) (c1 : NullDebugServiceClient) (h0 : List Call) : Run :=
  let q1 : CreateNullDebugRequest :=
    { NullDebug := some { Handle := some { Value := "OpiNull9" } } }
  let h1 := h0 ++ [⟨ctx, .CreateNullDebug q1⟩]
  let rs1 := c1.CreateNullDebug h0 ctx q1
  match rs1.2 with
  | some err => ⟨h1, .returned (some err)⟩
  | none =>
  let q3 : UpdateNullDebugRequest :=
    { NullDebug := some { Handle := some { Value := "OpiNull9" } } }
  let h2 := h1 ++ [⟨ctx, .UpdateNullDebug q3⟩]
  let rs3 := c1.UpdateNullDebug h1 ctx q3
  match rs3.2 with
  | some err => ⟨h2, .returned (some err)⟩
  | none =>
  let q4 : ListNullDebugsRequest := {}
  let h3 := h2 ++ [⟨ctx, .ListNullDebugs q4⟩]
  let rs4 := c1.ListNullDebugs h2 ctx q4
  match rs4.2 with
  | some err => ⟨h3, .returned (some err)⟩
  | none =>
  let q5 : GetNullDebugRequest := { Name := "OpiNull9" }
  let h4 := h3 ++ [⟨ctx, .GetNullDebug q5⟩]
  let rs5 := c1.GetNullDebug h3 ctx q5
  match rs5.2 with
  | some err => ⟨h4, .returned (some err)⟩
  | none =>
  -- `rs5.Handle.Value` is read for the log line
  match rs5.1 with
  | none => ⟨h4, .panicked .nilDereference⟩
  | some m5 =>
  match m5.Handle with
  | none => ⟨h4, .panicked .nilDereference⟩
  | some _ =>
  let q6 : NullDebugStatsRequest := { Handle := some { Value := "OpiNull9" } }
  let h5 := h4 ++ [⟨ctx, .NullDebugStats q6⟩]
  let rs6 := c1.NullDebugStats h4 ctx q6
  match rs6.2 with
  | some err => ⟨h5, .returned (some err)⟩
  | none =>
  -- `rs6.Stats` is read for the log line
  match rs6.1 with
  | none => ⟨h5, .panicked .nilDereference⟩
  | some _ =>
  let q2 : DeleteNullDebugRequest := { Name := "OpiNull9" }
  let h6 := h5 ++ [⟨ctx, .DeleteNullDebug q2⟩]
  let rs2 := c1.DeleteNullDebug h5 ctx q2
  match rs2.2 with
  | some err => ⟨h6, .returned (some err)⟩
  | none => ⟨h6, .returned none⟩

/-- The function `executeAioController`. -/
def executeAioController (ctx : Context) (c2 : AioControllerServiceClient)
    (h0 : List Call) : Run :=
  let q1 : CreateAioControllerRequest :=
    { AioController := some
        { Handle := some { Value := "OpiAio4" }, Filename := "/tmp/aio_bdev_file" } }
  let h1 := h0 ++ [⟨ctx, .CreateAioController q1⟩]
  let ra1 := c2.CreateAioController h0 ctx q1
  match ra1.2 with
  | some err => ⟨h1, .returned (some err)⟩
  | none =>
  let q3 : UpdateAioControllerRequest :=
    { AioController := some
        { Handle := some { Value := "OpiAio4" }, Filename := "/tmp/aio_bdev_file" } }
  let h2 := h1 ++ [⟨ctx, .UpdateAioController q3⟩]
  let ra3 := c2.UpdateAioController h1 ctx q3
  match ra3.2 with
  | some err => ⟨h2, .returned (some err)⟩
  | none =>
  let q4 : ListAioControllersRequest := {}
  let h3 := h2 ++ [⟨ctx, .ListAioControllers q4⟩]
  let ra4 := c2.ListAioControllers h2 ctx q4
  match ra4.2 with
  | some err => ⟨h3, .returned (some err)⟩
  | none =>
  let q5 : GetAioControllerRequest := { Name := "OpiAio4" }
  let h4 := h3 ++ [⟨ctx, .GetAioController q5⟩]
  let ra5 := c2.GetAioController h3 ctx q5
  match ra5.2 with
  | some err => ⟨h4, .returned (some err)⟩
  | none =>
  -- `ra5.Handle.Value` is read for the log line
  match ra5.1 with
  | none => ⟨h4, .panicked .nilDereference⟩
  | some m5 =>
  match m5.Handle with
  | none => ⟨h4, .panicked .nilDereference⟩
  | some _ =>
  let q6 : AioControllerStatsRequest := { Handle := some { Value := "OpiAio4" } }
  let h5 := h4 ++ [⟨ctx, .AioControllerStats q6⟩]
  let ra6 := c2.AioControllerStats h4 ctx q6
  match ra6.2 with
  | some err => ⟨h5, .returned (some err)⟩
  | none =>
  -- `ra6.Stats` is read for the log line
  match ra6.1 with
  | none => ⟨h5, .panicked .nilDereference⟩
  | some _ =>
  let q2 : DeleteAioControllerRequest := { Name := "OpiAio4" }
  let h6 := h5 ++ [⟨ctx, .DeleteAioController q2⟩]
  let ra2 := c2.DeleteAioController h5 ctx q2
  match ra2.2 with
  | some err => ⟨h6, .returned (some err)⟩
  | none => ⟨h6, .returned none⟩

/-- The function `DoBackend`: the three lifecycles in sequence, each entered only
when the one before returned nil.  A fault ends the program where it occurs. -/
def DoBackend (LookupIP : Resolver) (ctx : Context) (conn : ClientConn)
    (h0 : List Call) : Run :=
  let nvme := NewNVMfRemoteControllerServiceClient conn
  let null := NewNullDebugServiceClient conn
  let aio := NewAioControllerServiceClient conn
  match executeNVMfRemoteController LookupIP ctx nvme h0 with
  | ⟨h1, .panicked f⟩ => ⟨h1, .panicked f⟩
  | ⟨h1, .returned (some err)⟩ => ⟨h1, .returned (some err)⟩
  | ⟨h1, .returned none⟩ =>
  match executeNullDebug ctx null h1 with
  | ⟨h2, .panicked f⟩ => ⟨h2, .panicked f⟩
  | ⟨h2, .returned (some err)⟩ => ⟨h2, .returned (some err)⟩
  | ⟨h2, .returned none⟩ =>
  match executeAioController ctx aio h2 with
  | ⟨h3, .panicked f⟩ => ⟨h3, .panicked f⟩
  | ⟨h3, .returned (some err)⟩ => ⟨h3, .returned (some err)⟩
  | ⟨h3, .returned none⟩ => ⟨h3, .returned none⟩

/-! ## Vocabulary for stating properties of the call record -/

/-- The resource kind a request belongs to. -/
inductive Kind where
  | NVMf
  | Null
  | Aio
  deriving DecidableEq, Repr

/-- The operation a request performs. -/
inductive Op where
  | create
  | update
  | reset
  | list
  | get
  | stats
  | delete
  deriving DecidableEq, Repr

/-- A resource specification carried by a request. -/
inductive Spec where
  | nvmf (s : NVMfRemoteController)
  | null (s : NullDebug)
  | aio (s : AioController)
  deriving DecidableEq, Repr

def Request.kind : Request → Kind
  | .CreateNVMfRemoteController _ => .NVMf
  | .NVMfRemoteControllerReset _ => .NVMf
  | .ListNVMfRemoteControllers _ => .NVMf
  | .GetNVMfRemoteController _ => .NVMf
  | .NVMfRemoteControllerStats _ => .NVMf
  | .DeleteNVMfRemoteController _ => .NVMf
  | .CreateNullDebug _ => .Null
  | .UpdateNullDebug _ => .Null
  | .ListNullDebugs _ => .Null
  | .GetNullDebug _ => .Null
  | .NullDebugStats _ => .Null
  | .DeleteNullDebug _ => .Null
  | .CreateAioController _ => .Aio
  | .UpdateAioController _ => .Aio
  | .ListAioControllers _ => .Aio
  | .GetAioController _ => .Aio
  | .AioControllerStats _ => .Aio
  | .DeleteAioController _ => .Aio

def Request.op : Request → Op
  | .CreateNVMfRemoteController _ => .create
  | .NVMfRemoteControllerReset _ => .reset
  | .ListNVMfRemoteControllers _ => .list
  | .GetNVMfRemoteController _ => .get
  | .NVMfRemoteControllerStats _ => .stats
  | .DeleteNVMfRemoteController _ => .delete
  | .CreateNullDebug _ => .create
  | .UpdateNullDebug _ => .update
  | .ListNullDebugs _ => .list
  | .GetNullDebug _ => .get
  | .NullDebugStats _ => .stats
  | .DeleteNullDebug _ => .delete
  | .CreateAioController _ => .create
  | .UpdateAioController _ => .update
  | .ListAioControllers _ => .list
  | .GetAioController _ => .get
  | .AioControllerStats _ => .stats
  | .DeleteAioController _ => .delete

/-- The identifier a request addresses its resource by; `none` when the request
names no resource. -/
def Request.ident : Request → Option String
  | .CreateNVMfRemoteController r => (r.NvMfRemoteController.bind (·.Id)).map (·.Value)
  | .NVMfRemoteControllerReset r => r.Id.map (·.Value)
  | .ListNVMfRemoteControllers _ => none
  | .GetNVMfRemoteController r => some r.Name
  | .NVMfRemoteControllerStats r => r.Id.map (·.Value)
  | .DeleteNVMfRemoteController r => some r.Name
  | .CreateNullDebug r => (r.NullDebug.bind (·.Handle)).map (·.Value)
  | .UpdateNullDebug r => (r.NullDebug.bind (·.Handle)).map (·.Value)
  | .ListNullDebugs _ => none
  | .GetNullDebug r => some r.Name
  | .NullDebugStats r => r.Handle.map (·.Value)
  | .DeleteNullDebug r => some r.Name
  | .CreateAioController r => (r.AioController.bind (·.Handle)).map (·.Value)
  | .UpdateAioController r => (r.AioController.bind (·.Handle)).map (·.Value)
  | .ListAioControllers _ => none
  | .GetAioController r => some r.Name
  | .AioControllerStats r => r.Handle.map (·.Value)
  | .DeleteAioController r => some r.Name

/-- The resource specification a request submits, if it submits one. -/
def Request.spec : Request → Option Spec
  | .CreateNVMfRemoteController r => r.NvMfRemoteController.map .nvmf
  | .CreateNullDebug r => r.NullDebug.map .null
  | .UpdateNullDebug r => r.NullDebug.map .null
  | .CreateAioController r => r.AioController.map .aio
  | .UpdateAioController r => r.AioController.map .aio
  | _ => none

/-- The six requests of the NVMf lifecycle in program order, for the transport
address `traddr` taken from the name lookup. -/
def nvmfRequests (traddr : String) : List Request :=
  [ .CreateNVMfRemoteController
      { NvMfRemoteController := some
          { Id := some { Value := "OpiNvme8" }
            Trtype := NvmeTransportType_NVME_TRANSPORT_TCP
            Adrfam := NvmeAddressFamily_NVMF_ADRFAM_IPV4
            Traddr := traddr
            Trsvcid := 4444
            Subnqn := "nqn.2016-06.io.spdk:cnode1"
            Hostnqn := "nqn.2014-08.org.nvmexpress:uuid:feb98abe-d51f-40c8-b348-2753f3571d3c" } },
    .NVMfRemoteControllerReset { Id := some { Value := "OpiNvme8" } },
    .ListNVMfRemoteControllers {},
    .GetNVMfRemoteController { Name := "OpiNvme8" },
    .NVMfRemoteControllerStats { Id := some { Value := "OpiNvme8" } },
    .DeleteNVMfRemoteController { Name := "OpiNvme8" } ]

/-- The six requests of the null-debug lifecycle in program order. -/
def nullDebugRequests : List Request :=
  [ .CreateNullDebug { NullDebug := some { Handle := some { Value := "OpiNull9" } } },
    .UpdateNullDebug { NullDebug := some { Handle := some { Value := "OpiNull9" } } },
    .ListNullDebugs {},
    .GetNullDebug { Name := "OpiNull9" },
    .NullDebugStats { Handle := some { Value := "OpiNull9" } },
    .DeleteNullDebug { Name := "OpiNull9" } ]

/-- The six requests of the AIO lifecycle in program order. -/
def aioRequests : List Request :=
  [ .CreateAioController
      { AioController := some
          { Handle := some { Value := "OpiAio4" }, Filename := "/tmp/aio_bdev_file" } },
    .UpdateAioController
      { AioController := some
          { Handle := some { Value := "OpiAio4" }, Filename := "/tmp/aio_bdev_file" } },
    .ListAioControllers {},
    .GetAioController { Name := "OpiAio4" },
    .AioControllerStats { Handle := some { Value := "OpiAio4" } },
    .DeleteAioController { Name := "OpiAio4" } ]

/-- The calls a function issues when it sends the requests `rs` on context `ctx`. -/
def callsOn (ctx : Context) (rs : List Request) : List Call := rs.map (Call.mk ctx)

/-- The `err` results that the six calls of the null-debug lifecycle yield on
client `c1`, each call being made after the ones before it were recorded. -/
def NullDebugServiceClient.errs (c1 : NullDebugServiceClient) (ctx : Context)
    (h0 : List Call) : List (Option GoError) :=
  let cs := callsOn ctx nullDebugRequests
  [ (c1.CreateNullDebug h0 ctx
      { NullDebug := some { Handle := some { Value := "OpiNull9" } } }).2,
    (c1.UpdateNullDebug (h0 ++ cs.take 1) ctx
      { NullDebug := some { Handle := some { Value := "OpiNull9" } } }).2,
    (c1.ListNullDebugs (h0 ++ cs.take 2) ctx {}).2,
    (c1.GetNullDebug (h0 ++ cs.take 3) ctx { Name := "OpiNull9" }).2,
    (c1.NullDebugStats (h0 ++ cs.take 4) ctx { Handle := some { Value := "OpiNull9" } }).2,
    (c1.DeleteNullDebug (h0 ++ cs.take 5) ctx { Name := "OpiNull9" }).2 ]

/-- The response of the Get call of the null-debug lifecycle on client `c1`. -/
def NullDebugServiceClient.getResp (c1 : NullDebugServiceClient) (ctx : Context)
    (h0 : List Call) : Option NullDebug :=
  (c1.GetNullDebug (h0 ++ (callsOn ctx nullDebugRequests).take 3) ctx { Name := "OpiNull9" }).1

/-- The response of the Stats call of the null-debug lifecycle on client `c1`. -/
def NullDebugServiceClient.statsResp (c1 : NullDebugServiceClient) (ctx : Context)
    (h0 : List Call) : Option NullDebugStatsResponse :=
  (c1.NullDebugStats (h0 ++ (callsOn ctx nullDebugRequests).take 4) ctx
    { Handle := some { Value := "OpiNull9" } }).1

/-- The Get response can be logged: it is not nil and carries a `Handle`. -/
def NullDebugServiceClient.getLoggable (c1 : NullDebugServiceClient) (ctx : Context)
    (h0 : List Call) : Bool :=
  match c1.getResp ctx h0 with
  | some m => m.Handle.isSome
  | none => false

/-- The Stats response can be logged: it is not nil. -/
def NullDebugServiceClient.statsLoggable (c1 : NullDebugServiceClient) (ctx : Context)
    (h0 : List Call) : Bool :=
  (c1.statsResp ctx h0).isSome

/-- The `err` results that the six calls of the AIO lifecycle yield on client `c2`,
each call being made after the ones before it were recorded. -/
def AioControllerServiceClient.errs (c2 : AioControllerServiceClient) (ctx : Context)
    (h0 : List Call) : List (Option GoError) :=
  let cs := callsOn ctx aioRequests
  [ (c2.CreateAioController h0 ctx
      { AioController := some
          { Handle := some { Value := "OpiAio4" }, Filename := "/tmp/aio_bdev_file" } }).2,
    (c2.UpdateAioController (h0 ++ cs.take 1) ctx
      { AioController := some
          { Handle := some { Value := "OpiAio4" }, Filename := "/tmp/aio_bdev_file" } }).2,
    (c2.ListAioControllers (h0 ++ cs.take 2) ctx {}).2,
    (c2.GetAioController (h0 ++ cs.take 3) ctx { Name := "OpiAio4" }).2,
    (c2.AioControllerStats (h0 ++ cs.take 4) ctx { Handle := some { Value := "OpiAio4" } }).2,
    (c2.DeleteAioController (h0 ++ cs.take 5) ctx { Name := "OpiAio4" }).2 ]

/-- The response of the Get call of the AIO lifecycle on client `c2`. -/
def AioControllerServiceClient.getResp (c2 : AioControllerServiceClient) (ctx : Context)
    (h0 : List Call) : Option AioController :=
  (c2.GetAioController (h0 ++ (callsOn ctx aioRequests).take 3) ctx { Name := "OpiAio4" }).1

/-- The response of the Stats call of the AIO lifecycle on client `c2`. -/
def AioControllerServiceClient.statsResp (c2 : AioControllerServiceClient) (ctx : Context)
    (h0 : List Call) : Option AioControllerStatsResponse :=
  (c2.AioControllerStats (h0 ++ (callsOn ctx aioRequests).take 4) ctx
    { Handle := some { Value := "OpiAio4" } }).1

/-- The Get response can be logged: it is not nil and carries a `Handle`. -/
def AioControllerServiceClient.getLoggable (c2 : AioControllerServiceClient) (ctx : Context)
    (h0 : List Call) : Bool :=
  match c2.getResp ctx h0 with
  | some m => m.Handle.isSome
  | none => false

/-- The Stats response can be logged: it is not nil. -/
def AioControllerServiceClient.statsLoggable (c2 : AioControllerServiceClient)
    (ctx : Context) (h0 : List Call) : Bool :=
  (c2.statsResp ctx h0).isSome

/-- The transport address the NVMf lifecycle puts in its Create request: the text
of the first address the lookup of `spdk` yields. -/
def lookupTraddr (LookupIP : Resolver) : String :=
  match (LookupIP "spdk").1 with
  | a :: _ => a.String
  | [] => ""

/-- The `err` results that the six calls of the NVMf lifecycle yield on client `c4`
when the Create request carries the transport address `traddr`. -/
def NVMfRemoteControllerServiceClient.errs (c4 : NVMfRemoteControllerServiceClient)
    (ctx : Context) (h0 : List Call) (traddr : String) : List (Option GoError) :=
  let cs := callsOn ctx (nvmfRequests traddr)
  [ (c4.CreateNVMfRemoteController h0 ctx
      { NvMfRemoteController := some
          { Id := some { Value := "OpiNvme8" }
            Trtype := NvmeTransportType_NVME_TRANSPORT_TCP
            Adrfam := NvmeAddressFamily_NVMF_ADRFAM_IPV4
            Traddr := traddr
            Trsvcid := 4444
            Subnqn := "nqn.2016-06.io.spdk:cnode1"
            Hostnqn := "nqn.2014-08.org.nvmexpress:uuid:feb98abe-d51f-40c8-b348-2753f3571d3c" } }).2,
    (c4.NVMfRemoteControllerReset (h0 ++ cs.take 1) ctx { Id := some { Value := "OpiNvme8" } }).2,
    (c4.ListNVMfRemoteControllers (h0 ++ cs.take 2) ctx {}).2,
    (c4.GetNVMfRemoteController (h0 ++ cs.take 3) ctx { Name := "OpiNvme8" }).2,
    (c4.NVMfRemoteControllerStats (h0 ++ cs.take 4) ctx { Id := some { Value := "OpiNvme8" } }).2,
    (c4.DeleteNVMfRemoteController (h0 ++ cs.take 5) ctx { Name := "OpiNvme8" }).2 ]

/-! ## Concrete clients

Scripted clients used to run the functions on explicit inputs.  Entry `i` of a
script is the `err` result of the call made when `i` calls have been recorded. -/

/-- The `err` result a script assigns to the call made after the calls `h`. -/
def scriptErr (script : List (Option GoError)) (h : List Call) : Option GoError :=
  (script[h.length]?).join

/-- The result pair of a scripted call: `(nil, e)` when the script holds an error,
`(resp, nil)` otherwise. -/
def scriptReply {α : Type} (script : List (Option GoError)) (h : List Call)
    (resp : Option α) : Reply α :=
  match scriptErr script h with
  | some e => (none, some e)
  | none => (resp, none)

/-- A scripted NVMf client; Create and Get answer with a controller named `name`. -/
def scriptedNVMfClient (script : List (Option GoError)) (name : String) :
    NVMfRemoteControllerServiceClient where
  CreateNVMfRemoteController h _ _ := scriptReply script h (some { Id := some ⟨name⟩ })
  NVMfRemoteControllerReset h _ _ := scriptReply script h (some {})
  ListNVMfRemoteControllers h _ _ := scriptReply script h (some {})
  GetNVMfRemoteController h _ _ := scriptReply script h (some { Id := some ⟨name⟩ })
  NVMfRemoteControllerStats h _ _ := scriptReply script h (some {})
  DeleteNVMfRemoteController h _ _ := scriptReply script h (some {})

/-- A scripted null-debug client whose Get answers `getResp` and whose Stats answers
`statsResp`. -/
def scriptedNullClient (script : List (Option GoError)) (getResp : Option NullDebug)
    (statsResp : Option NullDebugStatsResponse) : NullDebugServiceClient where
  CreateNullDebug h _ q := scriptReply script h q.NullDebug
  UpdateNullDebug h _ q := scriptReply script h q.NullDebug
  ListNullDebugs h _ _ := scriptReply script h (some {})
  GetNullDebug h _ _ := scriptReply script h getResp
  NullDebugStats h _ _ := scriptReply script h statsResp
  DeleteNullDebug h _ _ := scriptReply script h (some {})

/-- A scripted AIO client whose Get answers `getResp` and whose Stats answers
`statsResp`. -/
def scriptedAioClient (script : List (Option GoError)) (getResp : Option AioController)
    (statsResp : Option AioControllerStatsResponse) : AioControllerServiceClient where
  CreateAioController h _ q := scriptReply script h q.AioController
  UpdateAioController h _ q := scriptReply script h q.AioController
  ListAioControllers h _ _ := scriptReply script h (some {})
  GetAioController h _ _ := scriptReply script h getResp
  AioControllerStats h _ _ := scriptReply script h statsResp
  DeleteAioController h _ _ := scriptReply script h (some {})

/-- A connection whose three clients follow one script and answer Get with the
identifier that was created. -/
def scriptedConn (script : List (Option GoError)) : ClientConn where
  nvme := scriptedNVMfClient script "OpiNvme8"
  null := scriptedNullClient script (some { Handle := some ⟨"OpiNull9"⟩ }) (some {})
  aio := scriptedAioClient script (some { Handle := some ⟨"OpiAio4"⟩ }) (some {})

/-- A resolver that finds the one address `203.0.113.5` for every name. -/
def oneAddress : Resolver := fun _ => ([⟨"203.0.113.5"⟩], none)

/-- A context that is never cancelled. -/
def background : Context := { id := 0, cancelAfter := none }

/-- The error used in the examples. -/
def unavailable : GoError := ⟨"rpc error: code = Unavailable"⟩

/-- The requests a run issued after the calls `h0` that were recorded before it
started, in order. -/
def Run.issued (r : Run) (h0 : List Call) : List Request :=
  (r.calls.drop h0.length).map (fun c => c.req)

/-- A null-debug server answer to Get that carries no `Handle`. -/
def nullDebugWithoutHandle : NullDebug := { Handle := none }

/-- An AIO server answer to Get that carries no `Handle`. -/
def aioWithoutHandle : AioController := { Handle := none, Filename := "/tmp/aio_bdev_file" }

/-- Call number `k` (counted from 0) of the null-debug lifecycle on client `c1` is
the first to return an error, the error is `e`, and the answers logged before it
can be logged. -/
def NullDebugServiceClient.FailsAt (c1 : NullDebugServiceClient) (ctx : Context)
    (h0 : List Call) (k : Nat) (e : GoError) : Prop :=
  k < 6 ∧ (c1.errs ctx h0).take k = List.replicate k none ∧
    (c1.errs ctx h0)[k]? = some (some e) ∧
    (4 ≤ k → c1.getLoggable ctx h0 = true) ∧ (5 ≤ k → c1.statsLoggable ctx h0 = true)

/-- Call number `k` (counted from 0) of the AIO lifecycle on client `c2` is the first
to return an error, the error is `e`, and the answers logged before it can be
logged. -/
def AioControllerServiceClient.FailsAt (c2 : AioControllerServiceClient) (ctx : Context)
    (h0 : List Call) (k : Nat) (e : GoError) : Prop :=
  k < 6 ∧ (c2.errs ctx h0).take k = List.replicate k none ∧
    (c2.errs ctx h0)[k]? = some (some e) ∧
    (4 ≤ k → c2.getLoggable ctx h0 = true) ∧ (5 ≤ k → c2.statsLoggable ctx h0 = true)

/-- Call number `k` (counted from 0) of the NVMf lifecycle on client `c4`, run with
the transport address `traddr`, is the first to return an error, and the error is
`e`. -/
def NVMfRemoteControllerServiceClient.FailsAt (c4 : NVMfRemoteControllerServiceClient)
    (ctx : Context) (h0 : List Call) (traddr : String) (k : Nat) (e : GoError) : Prop :=
  k < 6 ∧ (c4.errs ctx h0 traddr).take k = List.replicate k none ∧
    (c4.errs ctx h0 traddr)[k]? = some (some e)

/-- A null-debug client all of whose calls succeed and whose Get answers with a
resource named `SomethingElse`. -/
def foreignNullClient : NullDebugServiceClient :=
  scriptedNullClient [] (some { Handle := some ⟨"SomethingElse"⟩ }) (some {})

/-- An AIO client all of whose calls succeed and whose Get answers with a resource
named `SomethingElse`. -/
def foreignAioClient : AioControllerServiceClient :=
  scriptedAioClient [] (some { Handle := some ⟨"SomethingElse"⟩ }) (some {})

/-- The client fails every call made on a context that is cancelled when the call
is made, as a gRPC client does. -/
def NVMfRemoteControllerServiceClient.HonoursCancel (c4 : NVMfRemoteControllerServiceClient) : Prop :=
  ∀ (h : List Call) (ctx : Context), (ctx.Err h.length).isSome = true →
      (∀ q, (c4.CreateNVMfRemoteController h ctx q).2.isSome = true) ∧
      (∀ q, (c4.NVMfRemoteControllerReset h ctx q).2.isSome = true) ∧
      (∀ q, (c4.ListNVMfRemoteControllers h ctx q).2.isSome = true) ∧
      (∀ q, (c4.GetNVMfRemoteController h ctx q).2.isSome = true) ∧
      (∀ q, (c4.NVMfRemoteControllerStats h ctx q).2.isSome = true) ∧
      (∀ q, (c4.DeleteNVMfRemoteController h ctx q).2.isSome = true)

/-- The client fails every call made on a context that is cancelled when the call
is made, as a gRPC client does. -/
def NullDebugServiceClient.HonoursCancel (c1 : NullDebugServiceClient) : Prop :=
  ∀ (h : List Call) (ctx : Context), (ctx.Err h.length).isSome = true →
      (∀ q, (c1.CreateNullDebug h ctx q).2.isSome = true) ∧
      (∀ q, (c1.UpdateNullDebug h ctx q).2.isSome = true) ∧
      (∀ q, (c1.ListNullDebugs h ctx q).2.isSome = true) ∧
      (∀ q, (c1.GetNullDebug h ctx q).2.isSome = true) ∧
      (∀ q, (c1.NullDebugStats h ctx q).2.isSome = true) ∧
      (∀ q, (c1.DeleteNullDebug h ctx q).2.isSome = true)

/-- The client fails every call made on a context that is cancelled when the call
is made, as a gRPC client does. -/
def AioControllerServiceClient.HonoursCancel (c2 : AioControllerServiceClient) : Prop :=
  ∀ (h : List Call) (ctx : Context), (ctx.Err h.length).isSome = true →
      (∀ q, (c2.CreateAioController h ctx q).2.isSome = true) ∧
      (∀ q, (c2.UpdateAioController h ctx q).2.isSome = true) ∧
      (∀ q, (c2.ListAioControllers h ctx q).2.isSome = true) ∧
      (∀ q, (c2.GetAioController h ctx q).2.isSome = true) ∧
      (∀ q, (c2.AioControllerStats h ctx q).2.isSome = true) ∧
      (∀ q, (c2.DeleteAioController h ctx q).2.isSome = true)

/-- The result pair of a client that checks the context first: `(nil, ctx.Err())`
when the context is cancelled, `(resp, nil)` otherwise. -/
def cancelReply {α : Type} (ctx : Context) (h : List Call) (resp : Option α) : Reply α :=
  match ctx.Err h.length with
  | some e => (none, some e)
  | none => (resp, none)

/-- An NVMf client that checks the context before every call and otherwise succeeds. -/
def cancelAwareNVMfClient : NVMfRemoteControllerServiceClient where
  CreateNVMfRemoteController h ctx q := cancelReply ctx h q.NvMfRemoteController
  NVMfRemoteControllerReset h ctx _ := cancelReply ctx h (some {})
  ListNVMfRemoteControllers h ctx _ := cancelReply ctx h (some {})
  GetNVMfRemoteController h ctx q := cancelReply ctx h (some { Id := some ⟨q.Name⟩ })
  NVMfRemoteControllerStats h ctx _ := cancelReply ctx h (some {})
  DeleteNVMfRemoteController h ctx _ := cancelReply ctx h (some {})

/-- A null-debug client that checks the context before every call and otherwise
succeeds. -/
def cancelAwareNullClient : NullDebugServiceClient where
  CreateNullDebug h ctx q := cancelReply ctx h q.NullDebug
  UpdateNullDebug h ctx q := cancelReply ctx h q.NullDebug
  ListNullDebugs h ctx _ := cancelReply ctx h (some {})
  GetNullDebug h ctx q := cancelReply ctx h (some { Handle := some ⟨q.Name⟩ })
  NullDebugStats h ctx _ := cancelReply ctx h (some {})
  DeleteNullDebug h ctx _ := cancelReply ctx h (some {})

/-- An AIO client that checks the context before every call and otherwise succeeds. -/
def cancelAwareAioClient : AioControllerServiceClient where
  CreateAioController h ctx q := cancelReply ctx h q.AioController
  UpdateAioController h ctx q := cancelReply ctx h q.AioController
  ListAioControllers h ctx _ := cancelReply ctx h (some {})
  GetAioController h ctx q := cancelReply ctx h (some { Handle := some ⟨q.Name⟩ })
  AioControllerStats h ctx _ := cancelReply ctx h (some {})
  DeleteAioController h ctx _ := cancelReply ctx h (some {})

/-- A context the caller cancels once `n` remote calls have completed. -/
def cancelledAfter (n : Nat) : Context := { id := 1, cancelAfter := some n }

/-- A connection whose three clients check the context before every call. -/
def cancelAwareConn : ClientConn where
  nvme := cancelAwareNVMfClient
  null := cancelAwareNullClient
  aio := cancelAwareAioClient

/-! ## `mocks/InventorySvcClient.go`

The generated mock embeds testify's `mock.Mock`.  Values of type `interface{}` are
modelled by `Any`, which separates the nil interface from a typed nil pointer.  Of
`mock.Mock` the part `InventoryGet` relies on is modelled after the library:
`Arguments.Diff` compares the expected with the actual arguments position by
position up to the longer of the two, a missing one being the string `(Missing)`;
`Called` takes the first expectation of the method without differences, records the
call and hands back the return arguments of that expectation; a call without such
an expectation fails the test.  Expectations are the ones the file can register
with `EXPECT().InventoryGet(...)` followed by `Return` or `RunAndReturn`, their
expected arguments being plain values (`mock.Anything` among them) or `MatchedBy`
matchers: call limits (`Once`, `Times`), `Run` functions, programmed panics, waits
and the type matchers are left out. -/

/-- The message `InventoryGetRequest`; the mock never reads its content. -/
structure InventoryGetRequest where
  body : String := ""
  deriving DecidableEq, Repr

/-- The message `InventoryGetResponse`; the mock never reads its content. -/
structure InventoryGetResponse where
  body : String := ""
  deriving DecidableEq, Repr

/-- A `grpc.CallOption` that is not nil. -/
structure CallOption where
  name : String
  deriving DecidableEq, Repr

/-- The signature of `InventoryGet`: `ctx` and the elements of `opts` are interface
values and `in` is a pointer, so each may be nil. -/
abbrev InventoryGetFunc (ρ : Type) :=
  Option Context → Option InventoryGetRequest → List (Option CallOption) → ρ

/-- A value of type `interface{}`: nil, a context, a pointer to a request or to a
response (possibly a nil pointer), an error, a call option, a string, or a function
of one of the three signatures `InventoryGet` tests for. -/
inductive Any where
  | nil
  | context (c : Context)
  | request (p : Option InventoryGetRequest)
  | response (p : Option InventoryGetResponse)
  | error (e : GoError)
  | callOption (o : CallOption)
  | string (s : String)
  | funcBoth (rf : InventoryGetFunc (Option InventoryGetResponse × Option GoError))
  | funcResponse (rf : InventoryGetFunc (Option InventoryGetResponse))
  | funcError (rf : InventoryGetFunc (Option GoError))

/-- Conversion of a `context.Context` to `interface{}`. -/
def Any.ofContext : Option Context → Any
  | none => .nil
  | some c => .context c

/-- Conversion of a `grpc.CallOption` to `interface{}`. -/
def Any.ofCallOption : Option CallOption → Any
  | none => .nil
  | some o => .callOption o

/-- Conversion of an `error` to `interface{}`. -/
def Any.ofError : Option GoError → Any
  | none => .nil
  | some e => .error e

/-- The function `assert.ObjectsAreEqual`: nil equals only nil, values of different
dynamic types differ, pointers are compared through what they point to, and
functions are never equal. -/
def ObjectsAreEqual : Any → Any → Bool
  | .nil, .nil => true
  | .context a, .context b => decide (a = b)
  | .request a, .request b => decide (a = b)
  | .response a, .response b => decide (a = b)
  | .error a, .error b => decide (a = b)
  | .callOption a, .callOption b => decide (a = b)
  | .string a, .string b => decide (a = b)
  | _, _ => false

/-- A fault of a mock call. -/
inductive MockFault where
  | unexpectedCall
  | indexOutOfRange
  | typeAssertion
  deriving DecidableEq, Repr

/-- An expected argument of an expectation: a plain value, compared with
`ObjectsAreEqual`, or an argument matcher made by `mock.MatchedBy`, which is a test
on the actual argument. -/
inductive ExpectedArg where
  | value (v : Any)
  | matcher (p : Any → Bool)

/-- The constant `mock.Anything`, a string. -/
def Anything : Any := .string "mock.Anything"

/-- The placeholder `Arguments.Diff` uses for a missing argument, a string. -/
def Missing : Any := .string "(Missing)"

/-- One position of `Arguments.Diff`: whether `expected` and `actual` count as no
difference. -/
def ExpectedArg.noDifference (expected : ExpectedArg) (actual : Any) : Bool :=
  match expected with
  | .matcher p => p actual
  | .value v =>
    ObjectsAreEqual v Anything || ObjectsAreEqual actual Anything || ObjectsAreEqual actual v

/-- The method `Arguments.Diff`: the number of positions `i`, below the length of the
longer of the two lists, at which expected and actual argument differ; an argument
missing at `i` is replaced by the string `(Missing)`. -/
def Arguments.Diff (args : List ExpectedArg) (objects : List Any) : Nat :=
  let maxArgCount := max args.length objects.length
  ((List.range maxArgCount).filter (fun i =>
    let actual := (objects[i]?).getD Missing
    let expected := (args[i]?).getD (.value Missing)
    !(expected.noDifference actual))).length

/-- An expectation: a `*mock.Call` registered by `On`. -/
structure Expectation where
  Method : String
  Arguments : List ExpectedArg
  ReturnArguments : List Any

/-- A call recorded by the mock. -/
structure RecordedCall where
  Method : String
  Arguments : List Any

/-- The state of a `mock.Mock`. -/
structure Mock where
  ExpectedCalls : List Expectation
  Calls : List RecordedCall

/-- The method `Mock.On`: registers an expectation and returns it. -/
def Mock.On (m : Mock) (method : String) (args : List ExpectedArg) : Mock × Expectation :=
  let x : Expectation := { Method := method, Arguments := args, ReturnArguments := [] }
  ({ m with ExpectedCalls := m.ExpectedCalls ++ [x] }, x)

/-- The method `Mock.findExpectedCall`: the first expectation of `method` whose
arguments show no difference with `args`. -/
def Mock.findExpectedCall (m : Mock) (method : String) (args : List Any) :
    Option Expectation :=
  m.ExpectedCalls.find?
    (fun call => call.Method == method && Arguments.Diff call.Arguments args == 0)

/-- The method `Mock.Called` for a call of `method`. -/
def Mock.Called (m : Mock) (method : String) (args : List Any) :
    Mock × Except MockFault (List Any) :=
  match m.findExpectedCall method args with
  | none => (m, .error .unexpectedCall)
  | some call =>
    ({ m with Calls := m.Calls ++ [⟨method, args⟩] }, .ok call.ReturnArguments)

/-- The method `Arguments.Get`. -/
def Arguments.Get (args : List Any) (index : Nat) : Except MockFault Any :=
  match args[index]? with
  | some v => .ok v
  | none => .error .indexOutOfRange

/-- The method `Arguments.Error`. -/
def Arguments.Error (args : List Any) (index : Nat) : Except MockFault (Option GoError) :=
  match Arguments.Get args index with
  | .error f => .error f
  | .ok .nil => .ok none
  | .ok (.error e) => .ok (some e)
  | .ok _ => .error .typeAssertion

/-- The method `InventorySvcClient.InventoryGet` of the mock. -/
def InventoryGet (_m : Mock) (ctx : Option Context) (in_ : Option InventoryGetRequest)
    (opts : List (Option CallOption)) :
    Mock × Except MockFault (Option InventoryGetResponse × Option GoError) :=
  let _va : List Any := opts.map Any.ofCallOption
  let _ca : List Any := [Any.ofContext ctx, Any.request in_] ++ _va
  match _m.Called "InventoryGet" _ca with
  | (m1, .error f) => (m1, .error f)
  | (m1, .ok ret) =>
  match Arguments.Get ret 0 with
  | .error f => (m1, .error f)
  | .ok (.funcBoth rf) => (m1, .ok (rf ctx in_ opts))
  | .ok v0 =>
  let r0 : Except MockFault (Option InventoryGetResponse) :=
    match v0 with
    | .funcResponse rf => .ok (rf ctx in_ opts)
    | .nil => .ok none
    | .response p => .ok p
    | _ => .error .typeAssertion
  match r0 with
  | .error f => (m1, .error f)
  | .ok r0 =>
  match Arguments.Get ret 1 with
  | .error f => (m1, .error f)
  | .ok (.funcError rf) => (m1, .ok (r0, rf ctx in_ opts))
  | .ok _ =>
  match Arguments.Error ret 1 with
  | .error f => (m1, .error f)
  | .ok r1 => (m1, .ok (r0, r1))

/-- The method `Call.Return` of testify's `mock.Call`: sets the return arguments. -/
def Expectation.Return (c : Expectation) (returnArguments : List Any) : Expectation :=
  { c with ReturnArguments := returnArguments }

/-- The type `InventorySvcClient_InventoryGet_Call`: a pointer to an expectation of a
mock, held as the mock, the position of the expectation in it and its value. -/
structure InventorySvcClient_InventoryGet_Call where
  mock : Mock
  index : Nat
  Call : Expectation

/-- The method `InventorySvcClient_Expecter.InventoryGet`: `On("InventoryGet", ...)`
with the expected arguments `ctx`, `in`, then `opts`. -/
def Expecter.InventoryGet (m : Mock) (ctx in_ : ExpectedArg) (opts : List ExpectedArg) :
    InventorySvcClient_InventoryGet_Call :=
  { mock := (m.On "InventoryGet" ([ctx, in_] ++ opts)).1
    index := m.ExpectedCalls.length
    Call := (m.On "InventoryGet" ([ctx, in_] ++ opts)).2 }

/-- The method `InventorySvcClient_InventoryGet_Call.Return`. -/
def InventorySvcClient_InventoryGet_Call.Return (_c : InventorySvcClient_InventoryGet_Call)
    (_a0 : Option InventoryGetResponse) (_a1 : Option GoError) :
    InventorySvcClient_InventoryGet_Call :=
  let call := _c.Call.Return [Any.response _a0, Any.ofError _a1]
  { mock := { _c.mock with ExpectedCalls := _c.mock.ExpectedCalls.set _c.index call }
    index := _c.index
    Call := call }

/-- The method `InventorySvcClient_InventoryGet_Call.RunAndReturn`. -/
def InventorySvcClient_InventoryGet_Call.RunAndReturn
    (_c : InventorySvcClient_InventoryGet_Call)
    (run : InventoryGetFunc (Option InventoryGetResponse × Option GoError)) :
    InventorySvcClient_InventoryGet_Call :=
  let call := _c.Call.Return [Any.funcBoth run]
  { mock := { _c.mock with ExpectedCalls := _c.mock.ExpectedCalls.set _c.index call }
    index := _c.index
    Call := call }

/-- The arguments `InventoryGet` hands to `Called`: `ctx`, then `in`, then the
elements of `opts` in their order. -/
def calledWith (ctx : Option Context) (in_ : Option InventoryGetRequest)
    (opts : List (Option CallOption)) : List Any :=
  Any.ofContext ctx :: Any.request in_ :: opts.map Any.ofCallOption

/-- The mock after it recorded one `InventoryGet` call with the given arguments. -/
def Mock.recorded (m : Mock) (ctx : Option Context) (in_ : Option InventoryGetRequest)
    (opts : List (Option CallOption)) : Mock :=
  { m with Calls := m.Calls ++ [⟨"InventoryGet", calledWith ctx in_ opts⟩] }

/-- A mock with no expectations and no recorded calls. -/
def freshMock : Mock := { ExpectedCalls := [], Calls := [] }

/-- The response used in the examples. -/
def sampleResponse : InventoryGetResponse := { body := "bios: v1" }

/-- Another response used in the examples. -/
def otherResponse : InventoryGetResponse := { body := "bios: v2" }

/-- A mock programmed by `EXPECT().InventoryGet(Anything, Anything, Anything)` followed
by `Return(a0, a1)`. -/
def returningMock (a0 : Option InventoryGetResponse) (a1 : Option GoError) : Mock :=
  ((Expecter.InventoryGet freshMock (.value Anything) (.value Anything)
    [.value Anything]).Return a0 a1).mock

/-- A mock with two expectations: first `InventoryGet(Anything, Anything, Anything)`
returning `sampleResponse`, then `InventoryGet(Anything, Anything)` returning
`otherResponse`. -/
def twoExpectationsMock : Mock :=
  ((Expecter.InventoryGet (returningMock (some sampleResponse) none)
    (.value Anything) (.value Anything) []).Return (some otherResponse) none).mock

/-- A stub that answers with the number of options it was called with. -/
def countOptions : InventoryGetFunc (Option InventoryGetResponse × Option GoError) :=
  fun _ _ opts => (some { body := toString opts.length }, none)

/-! ## Shape of the call record -/

/-- The record of a null-debug run extends the record it started from by the first
`n` of the six fixed calls, `1 ≤ n ≤ 6`, and `n = 6` when the run returns nil. -/
theorem executeNullDebug_shape (ctx : Context) (c1 : NullDebugServiceClient) (h0 : List Call) :
    ∃ n, 1 ≤ n ∧ n ≤ 6 ∧
      (executeNullDebug ctx c1 h0).calls = h0 ++ callsOn ctx (nullDebugRequests.take n) ∧
      ((executeNullDebug ctx c1 h0).outcome = .returned none → n = 6) := by
  simp only [executeNullDebug]
  repeat' split
  all_goals first
    | (refine ⟨1, by decide, by decide, ?_, ?_⟩ <;> (simp [callsOn, nullDebugRequests]; done))
    | (refine ⟨2, by decide, by decide, ?_, ?_⟩ <;> (simp [callsOn, nullDebugRequests]; done))
    | (refine ⟨3, by decide, by decide, ?_, ?_⟩ <;> (simp [callsOn, nullDebugRequests]; done))
    | (refine ⟨4, by decide, by decide, ?_, ?_⟩ <;> (simp [callsOn, nullDebugRequests]; done))
    | (refine ⟨5, by decide, by decide, ?_, ?_⟩ <;> (simp [callsOn, nullDebugRequests]; done))
    | (refine ⟨6, by decide, by decide, ?_, ?_⟩ <;> (simp [callsOn, nullDebugRequests]; done))

/-- When call number `k` (from 0) is the first to return an error `e`, and the
answers logged before it can be logged, `executeNullDebug` returns `e` after
`k + 1` calls. -/
theorem executeNullDebug_fails_at (ctx : Context) (c1 : NullDebugServiceClient)
    (h0 : List Call) (k : Nat) (e : GoError) (hk : k < 6)
    (hok : (c1.errs ctx h0).take k = List.replicate k none)
    (hfail : (c1.errs ctx h0)[k]? = some (some e))
    (hget : 4 ≤ k → c1.getLoggable ctx h0 = true)
    (hstats : 5 ≤ k → c1.statsLoggable ctx h0 = true) :
    executeNullDebug ctx c1 h0 =
      ⟨h0 ++ callsOn ctx (nullDebugRequests.take (k + 1)), .returned (some e)⟩ := by
  simp only [NullDebugServiceClient.getLoggable, NullDebugServiceClient.statsLoggable,
    NullDebugServiceClient.getResp, NullDebugServiceClient.statsResp] at hget hstats
  interval_cases k <;>
    simp [NullDebugServiceClient.errs, callsOn, nullDebugRequests, List.replicate] at hok hfail hget hstats <;>
    simp [executeNullDebug, callsOn, nullDebugRequests, *]
  all_goals (repeat' split) <;> simp_all

/-- The record of an AIO run extends the record it started from by the first `n` of
the six fixed calls, `1 ≤ n ≤ 6`, and `n = 6` when the run returns nil. -/
theorem executeAioController_shape (ctx : Context) (c2 : AioControllerServiceClient)
    (h0 : List Call) :
    ∃ n, 1 ≤ n ∧ n ≤ 6 ∧
      (executeAioController ctx c2 h0).calls = h0 ++ callsOn ctx (aioRequests.take n) ∧
      ((executeAioController ctx c2 h0).outcome = .returned none → n = 6) := by
  simp only [executeAioController]
  repeat' split
  all_goals first
    | (refine ⟨1, by decide, by decide, ?_, ?_⟩ <;> (simp [callsOn, aioRequests]; done))
    | (refine ⟨2, by decide, by decide, ?_, ?_⟩ <;> (simp [callsOn, aioRequests]; done))
    | (refine ⟨3, by decide, by decide, ?_, ?_⟩ <;> (simp [callsOn, aioRequests]; done))
    | (refine ⟨4, by decide, by decide, ?_, ?_⟩ <;> (simp [callsOn, aioRequests]; done))
    | (refine ⟨5, by decide, by decide, ?_, ?_⟩ <;> (simp [callsOn, aioRequests]; done))
    | (refine ⟨6, by decide, by decide, ?_, ?_⟩ <;> (simp [callsOn, aioRequests]; done))

/-- The record of an NVMf run extends the record it started from by the first `n` of
the six fixed calls, `n ≤ 6`, and `n = 6` when the run returns nil. -/
theorem executeNVMfRemoteController_shape (LookupIP : Resolver) (ctx : Context)
    (c4 : NVMfRemoteControllerServiceClient) (h0 : List Call) :
    ∃ n, n ≤ 6 ∧
      (executeNVMfRemoteController LookupIP ctx c4 h0).calls =
        h0 ++ callsOn ctx ((nvmfRequests (lookupTraddr LookupIP)).take n) ∧
      ((executeNVMfRemoteController LookupIP ctx c4 h0).outcome = .returned none → n = 6) := by
  simp only [executeNVMfRemoteController]
  repeat' split
  all_goals first
    | (refine ⟨0, by decide, ?_, ?_⟩ <;> (simp [callsOn, nvmfRequests, lookupTraddr, *]; done))
    | (refine ⟨1, by decide, ?_, ?_⟩ <;> (simp [callsOn, nvmfRequests, lookupTraddr, *]; done))
    | (refine ⟨2, by decide, ?_, ?_⟩ <;> (simp [callsOn, nvmfRequests, lookupTraddr, *]; done))
    | (refine ⟨3, by decide, ?_, ?_⟩ <;> (simp [callsOn, nvmfRequests, lookupTraddr, *]; done))
    | (refine ⟨4, by decide, ?_, ?_⟩ <;> (simp [callsOn, nvmfRequests, lookupTraddr, *]; done))
    | (refine ⟨5, by decide, ?_, ?_⟩ <;> (simp [callsOn, nvmfRequests, lookupTraddr, *]; done))
    | (refine ⟨6, by decide, ?_, ?_⟩ <;> (simp [callsOn, nvmfRequests, lookupTraddr, *]; done))

/-- When call number `k` (from 0) is the first to return an error `e`, and the
answers logged before it can be logged, `executeAioController` returns `e` after
`k + 1` calls. -/
theorem executeAioController_fails_at (ctx : Context) (c2 : AioControllerServiceClient)
    (h0 : List Call) (k : Nat) (e : GoError) (hk : k < 6)
    (hok : (c2.errs ctx h0).take k = List.replicate k none)
    (hfail : (c2.errs ctx h0)[k]? = some (some e))
    (hget : 4 ≤ k → c2.getLoggable ctx h0 = true)
    (hstats : 5 ≤ k → c2.statsLoggable ctx h0 = true) :
    executeAioController ctx c2 h0 =
      ⟨h0 ++ callsOn ctx (aioRequests.take (k + 1)), .returned (some e)⟩ := by
  simp only [AioControllerServiceClient.getLoggable, AioControllerServiceClient.statsLoggable,
    AioControllerServiceClient.getResp, AioControllerServiceClient.statsResp] at hget hstats
  interval_cases k <;>
    simp [AioControllerServiceClient.errs, callsOn, aioRequests, List.replicate]
      at hok hfail hget hstats <;>
    simp [executeAioController, callsOn, aioRequests, *]
  all_goals (repeat' split) <;> simp_all

/-- When the lookup yields an address and call number `k` (from 0) is the first to
return an error `e`, `executeNVMfRemoteController` returns `e` after `k + 1` calls. -/
theorem executeNVMfRemoteController_fails_at (LookupIP : Resolver) (ctx : Context)
    (c4 : NVMfRemoteControllerServiceClient) (h0 : List Call) (a : IP) (rest : List IP)
    (k : Nat) (e : GoError) (hk : k < 6)
    (hL : LookupIP "spdk" = (a :: rest, none))
    (hok : (c4.errs ctx h0 a.String).take k = List.replicate k none)
    (hfail : (c4.errs ctx h0 a.String)[k]? = some (some e)) :
    executeNVMfRemoteController LookupIP ctx c4 h0 =
      ⟨h0 ++ callsOn ctx ((nvmfRequests a.String).take (k + 1)), .returned (some e)⟩ := by
  interval_cases k <;>
    simp [NVMfRemoteControllerServiceClient.errs, callsOn, nvmfRequests, List.replicate]
      at hok hfail <;>
    simp [executeNVMfRemoteController, callsOn, nvmfRequests, *]

/-- When no call returns an error and the Get and Stats answers can be logged,
`executeNullDebug` makes the six calls and returns nil. -/
theorem executeNullDebug_succeeds (ctx : Context) (c1 : NullDebugServiceClient)
    (h0 : List Call)
    (hok : c1.errs ctx h0 = List.replicate 6 none)
    (hget : c1.getLoggable ctx h0 = true)
    (hstats : c1.statsLoggable ctx h0 = true) :
    executeNullDebug ctx c1 h0 = ⟨h0 ++ callsOn ctx nullDebugRequests, .returned none⟩ := by
  simp only [NullDebugServiceClient.getLoggable, NullDebugServiceClient.statsLoggable,
    NullDebugServiceClient.getResp, NullDebugServiceClient.statsResp] at hget hstats
  simp [NullDebugServiceClient.errs, callsOn, nullDebugRequests, List.replicate]
    at hok hget hstats
  simp [executeNullDebug, callsOn, nullDebugRequests, *]
  (repeat' split) <;> simp_all

/-- When no call returns an error and the Get and Stats answers can be logged,
`executeAioController` makes the six calls and returns nil. -/
theorem executeAioController_succeeds (ctx : Context) (c2 : AioControllerServiceClient)
    (h0 : List Call)
    (hok : c2.errs ctx h0 = List.replicate 6 none)
    (hget : c2.getLoggable ctx h0 = true)
    (hstats : c2.statsLoggable ctx h0 = true) :
    executeAioController ctx c2 h0 = ⟨h0 ++ callsOn ctx aioRequests, .returned none⟩ := by
  simp only [AioControllerServiceClient.getLoggable, AioControllerServiceClient.statsLoggable,
    AioControllerServiceClient.getResp, AioControllerServiceClient.statsResp] at hget hstats
  simp [AioControllerServiceClient.errs, callsOn, aioRequests, List.replicate]
    at hok hget hstats
  simp [executeAioController, callsOn, aioRequests, *]
  (repeat' split) <;> simp_all

/-- When the lookup yields an address and no call returns an error,
`executeNVMfRemoteController` makes the six calls and returns nil. -/
theorem executeNVMfRemoteController_succeeds (LookupIP : Resolver) (ctx : Context)
    (c4 : NVMfRemoteControllerServiceClient) (h0 : List Call) (a : IP) (rest : List IP)
    (hL : LookupIP "spdk" = (a :: rest, none))
    (hok : c4.errs ctx h0 a.String = List.replicate 6 none) :
    executeNVMfRemoteController LookupIP ctx c4 h0 =
      ⟨h0 ++ callsOn ctx (nvmfRequests a.String), .returned none⟩ := by
  simp [NVMfRemoteControllerServiceClient.errs, callsOn, nvmfRequests, List.replicate] at hok
  simp [executeNVMfRemoteController, callsOn, nvmfRequests, *]

/-! ## Facts about the fixed request lists -/

theorem mem_callsOn_take {ctx : Context} {rs : List Request} {n : Nat} {c : Call}
    (h : c ∈ callsOn ctx (rs.take n)) : c.ctx = ctx ∧ c.req ∈ rs := by
  simp only [callsOn, List.mem_map] at h
  obtain ⟨r, hr, rfl⟩ := h
  exact ⟨rfl, List.mem_of_mem_take hr⟩

theorem nvmfRequests_kind (t : String) : ∀ r ∈ nvmfRequests t, r.kind = .NVMf := by
  intro r hr
  simp only [nvmfRequests, List.mem_cons, List.mem_singleton, List.not_mem_nil, or_false] at hr
  rcases hr with rfl | rfl | rfl | rfl | rfl | rfl <;> rfl

theorem nullDebugRequests_kind : ∀ r ∈ nullDebugRequests, r.kind = .Null := by decide

theorem aioRequests_kind : ∀ r ∈ aioRequests, r.kind = .Aio := by decide

theorem drop_length_append_calls (h0 xs : List Call) : (h0 ++ xs).drop h0.length = xs := by
  simp

theorem map_req_callsOn (ctx : Context) (rs : List Request) :
    (callsOn ctx rs).map (fun c => c.req) = rs := by
  induction rs with
  | nil => rfl
  | cons r rs ih => simpa [callsOn] using ih

theorem executeNullDebug_issued (ctx : Context) (c1 : NullDebugServiceClient)
    (h0 : List Call) :
    ∃ n, 1 ≤ n ∧ n ≤ 6 ∧
      (executeNullDebug ctx c1 h0).issued h0 = nullDebugRequests.take n ∧
      (∀ c ∈ (executeNullDebug ctx c1 h0).calls.drop h0.length, c.ctx = ctx) ∧
      ((executeNullDebug ctx c1 h0).outcome = .returned none → n = 6) := by
  obtain ⟨n, h1, h6, hc, hs⟩ := executeNullDebug_shape ctx c1 h0
  refine ⟨n, h1, h6, ?_, ?_, hs⟩
  · simp only [Run.issued, hc, drop_length_append_calls, map_req_callsOn]
  · intro c hc'
    rw [hc, drop_length_append_calls] at hc'
    exact (mem_callsOn_take hc').1

theorem executeAioController_issued (ctx : Context) (c2 : AioControllerServiceClient)
    (h0 : List Call) :
    ∃ n, 1 ≤ n ∧ n ≤ 6 ∧
      (executeAioController ctx c2 h0).issued h0 = aioRequests.take n ∧
      (∀ c ∈ (executeAioController ctx c2 h0).calls.drop h0.length, c.ctx = ctx) ∧
      ((executeAioController ctx c2 h0).outcome = .returned none → n = 6) := by
  obtain ⟨n, h1, h6, hc, hs⟩ := executeAioController_shape ctx c2 h0
  refine ⟨n, h1, h6, ?_, ?_, hs⟩
  · simp only [Run.issued, hc, drop_length_append_calls, map_req_callsOn]
  · intro c hc'
    rw [hc, drop_length_append_calls] at hc'
    exact (mem_callsOn_take hc').1

theorem executeNVMfRemoteController_issued (LookupIP : Resolver) (ctx : Context)
    (c4 : NVMfRemoteControllerServiceClient) (h0 : List Call) :
    ∃ n, n ≤ 6 ∧
      (executeNVMfRemoteController LookupIP ctx c4 h0).issued h0 =
        (nvmfRequests (lookupTraddr LookupIP)).take n ∧
      (∀ c ∈ (executeNVMfRemoteController LookupIP ctx c4 h0).calls.drop h0.length,
        c.ctx = ctx) ∧
      ((executeNVMfRemoteController LookupIP ctx c4 h0).outcome = .returned none → n = 6) := by
  obtain ⟨n, h6, hc, hs⟩ := executeNVMfRemoteController_shape LookupIP ctx c4 h0
  refine ⟨n, h6, ?_, ?_, hs⟩
  · simp only [Run.issued, hc, drop_length_append_calls, map_req_callsOn]
  · intro c hc'
    rw [hc, drop_length_append_calls] at hc'
    exact (mem_callsOn_take hc').1

theorem nvmfRequests_ident (t : String) : ∀ r ∈ nvmfRequests t,
    (r.op ≠ .list → r.ident = some "OpiNvme8") ∧
    (r.op = .list → r = .ListNVMfRemoteControllers {}) := by
  intro r hr
  simp only [nvmfRequests, List.mem_cons, List.mem_singleton, List.not_mem_nil, or_false] at hr
  rcases hr with rfl | rfl | rfl | rfl | rfl | rfl <;> simp [Request.op, Request.ident]

theorem nullDebugRequests_ident : ∀ r ∈ nullDebugRequests,
    (r.op ≠ .list → r.ident = some "OpiNull9") ∧
    (r.op = .list → r = .ListNullDebugs {}) := by
  decide

theorem aioRequests_ident : ∀ r ∈ aioRequests,
    (r.op ≠ .list → r.ident = some "OpiAio4") ∧
    (r.op = .list → r = .ListAioControllers {}) := by
  decide

/-! ## C1: `DoBackend` runs the kinds in order and stops at the first error -/

/-- C1. `DoBackend` runs the NVMf lifecycle, then the null-debug lifecycle, then the
AIO lifecycle, each on the call record left by the one before.  If the NVMf
lifecycle returns error `e`, `DoBackend` returns `e` and every call it made is an
NVMf call; if NVMf returns nil and null-debug returns `e`, `DoBackend` returns `e`
and no call is an AIO call; if both return nil and AIO returns `e`, `DoBackend`
returns `e`; `DoBackend` returns nil exactly when all three return nil, and then its
calls are six NVMf calls, six null-debug calls and six AIO calls in that order. -/
theorem DoBackend_runs_kinds_in_order (LookupIP : Resolver) (ctx : Context)
    (conn : ClientConn) (h0 : List Call) :
    (∀ e h1,
      executeNVMfRemoteController LookupIP ctx (NewNVMfRemoteControllerServiceClient conn) h0
          = ⟨h1, .returned (some e)⟩ →
        DoBackend LookupIP ctx conn h0 = ⟨h1, .returned (some e)⟩ ∧
        ∀ c ∈ (DoBackend LookupIP ctx conn h0).calls.drop h0.length, c.req.kind = .NVMf) ∧
    (∀ e h1 h2,
      executeNVMfRemoteController LookupIP ctx (NewNVMfRemoteControllerServiceClient conn) h0
          = ⟨h1, .returned none⟩ →
      executeNullDebug ctx (NewNullDebugServiceClient conn) h1 = ⟨h2, .returned (some e)⟩ →
        DoBackend LookupIP ctx conn h0 = ⟨h2, .returned (some e)⟩ ∧
        ∀ c ∈ (DoBackend LookupIP ctx conn h0).calls.drop h0.length, c.req.kind ≠ .Aio) ∧
    (∀ e h1 h2 h3,
      executeNVMfRemoteController LookupIP ctx (NewNVMfRemoteControllerServiceClient conn) h0
          = ⟨h1, .returned none⟩ →
      executeNullDebug ctx (NewNullDebugServiceClient conn) h1 = ⟨h2, .returned none⟩ →
      executeAioController ctx (NewAioControllerServiceClient conn) h2
          = ⟨h3, .returned (some e)⟩ →
        DoBackend LookupIP ctx conn h0 = ⟨h3, .returned (some e)⟩) ∧
    ((DoBackend LookupIP ctx conn h0).outcome = .returned none ↔
      ∃ h1 h2 h3,
        executeNVMfRemoteController LookupIP ctx (NewNVMfRemoteControllerServiceClient conn) h0
          = ⟨h1, .returned none⟩ ∧
        executeNullDebug ctx (NewNullDebugServiceClient conn) h1 = ⟨h2, .returned none⟩ ∧
        executeAioController ctx (NewAioControllerServiceClient conn) h2
          = ⟨h3, .returned none⟩) ∧
    ((DoBackend LookupIP ctx conn h0).outcome = .returned none →
      ((DoBackend LookupIP ctx conn h0).calls.drop h0.length).map (fun c => c.req.kind) =
        List.replicate 6 Kind.NVMf ++ List.replicate 6 Kind.Null ++ List.replicate 6 Kind.Aio) := by
  obtain ⟨n1, hn1, hc1, hs1⟩ := executeNVMfRemoteController_shape LookupIP ctx
    (NewNVMfRemoteControllerServiceClient conn) h0
  have hiff : (DoBackend LookupIP ctx conn h0).outcome = .returned none ↔
      ∃ h1 h2 h3,
        executeNVMfRemoteController LookupIP ctx (NewNVMfRemoteControllerServiceClient conn) h0
          = ⟨h1, .returned none⟩ ∧
        executeNullDebug ctx (NewNullDebugServiceClient conn) h1 = ⟨h2, .returned none⟩ ∧
        executeAioController ctx (NewAioControllerServiceClient conn) h2
          = ⟨h3, .returned none⟩ := by
    constructor
    · intro h
      simp only [DoBackend] at h
      split at h
      · simp at h
      · simp at h
      · rename_i h1 hN
        split at h
        · simp at h
        · simp at h
        · rename_i h2 hU
          split at h
          · simp at h
          · simp at h
          · rename_i h3 hA
            exact ⟨h1, h2, h3, hN, hU, hA⟩
    · rintro ⟨h1, h2, h3, hN, hU, hA⟩
      simp [DoBackend, hN, hU, hA]
  refine ⟨?_, ?_, ?_, hiff, ?_⟩
  · intro e h1 hN
    have hD : DoBackend LookupIP ctx conn h0 = ⟨h1, .returned (some e)⟩ := by
      simp [DoBackend, hN]
    refine ⟨hD, ?_⟩
    intro c hc
    rw [hN] at hc1
    simp only at hc1
    rw [hD] at hc
    simp only [hc1, drop_length_append_calls] at hc
    exact nvmfRequests_kind _ _ (mem_callsOn_take hc).2
  · intro e h1 h2 hN hU
    have hD : DoBackend LookupIP ctx conn h0 = ⟨h2, .returned (some e)⟩ := by
      simp [DoBackend, hN, hU]
    refine ⟨hD, ?_⟩
    obtain ⟨n2, _, hn2, hc2, hs2⟩ := executeNullDebug_shape ctx (NewNullDebugServiceClient conn) h1
    intro c hc
    rw [hN] at hc1
    rw [hU] at hc2
    simp only at hc1 hc2
    rw [hD] at hc
    simp only [hc2, hc1, List.append_assoc, drop_length_append_calls, List.mem_append] at hc
    rcases hc with hc | hc
    · rw [nvmfRequests_kind _ _ (mem_callsOn_take hc).2]; decide
    · rw [nullDebugRequests_kind _ (mem_callsOn_take hc).2]; decide
  · intro e h1 h2 h3 hN hU hA
    simp [DoBackend, hN, hU, hA]
  · intro h
    obtain ⟨h1, h2, h3, hN, hU, hA⟩ := hiff.mp h
    have hD : DoBackend LookupIP ctx conn h0 = ⟨h3, .returned none⟩ := by
      simp [DoBackend, hN, hU, hA]
    obtain ⟨n2, _, hn2, hc2, hs2⟩ := executeNullDebug_shape ctx (NewNullDebugServiceClient conn) h1
    obtain ⟨n3, _, hn3, hc3, hs3⟩ :=
      executeAioController_shape ctx (NewAioControllerServiceClient conn) h2
    rw [hN] at hc1 hs1
    rw [hU] at hc2 hs2
    rw [hA] at hc3 hs3
    simp only at hc1 hc2 hc3
    obtain rfl := hs1 rfl
    obtain rfl := hs2 rfl
    obtain rfl := hs3 rfl
    rw [hD]
    simp only [hc3, hc2, hc1, List.append_assoc, drop_length_append_calls]
    simp [callsOn, nvmfRequests, nullDebugRequests, aioRequests, Request.kind, List.replicate]

/-- C1, at explicit inputs: an error in position 3 (NVMf Get), 8 (null-debug List) or
13 (AIO Update) of the run ends `DoBackend` there with that error, and a run
without errors returns nil after eighteen calls. -/
theorem DoBackend_runs_kinds_in_order_witness :
    DoBackend oneAddress background
        (scriptedConn [none, none, none, some unavailable]) [] =
      ⟨callsOn background ((nvmfRequests "203.0.113.5").take 4),
        .returned (some unavailable)⟩ ∧
    DoBackend oneAddress background
        (scriptedConn (List.replicate 8 none ++ [some unavailable])) [] =
      ⟨callsOn background (nvmfRequests "203.0.113.5" ++ nullDebugRequests.take 3),
        .returned (some unavailable)⟩ ∧
    DoBackend oneAddress background
        (scriptedConn (List.replicate 13 none ++ [some unavailable])) [] =
      ⟨callsOn background
          (nvmfRequests "203.0.113.5" ++ nullDebugRequests ++ aioRequests.take 2),
        .returned (some unavailable)⟩ ∧
    (DoBackend oneAddress background (scriptedConn []) []).outcome = .returned none :=
  ⟨((DoBackend_runs_kinds_in_order oneAddress background
        (scriptedConn [none, none, none, some unavailable]) []).1 unavailable
        (callsOn background ((nvmfRequests "203.0.113.5").take 4)) (by rfl)).1,
   ((DoBackend_runs_kinds_in_order oneAddress background
        (scriptedConn (List.replicate 8 none ++ [some unavailable])) []).2.1 unavailable
        (callsOn background (nvmfRequests "203.0.113.5"))
        (callsOn background (nvmfRequests "203.0.113.5" ++ nullDebugRequests.take 3))
        (by rfl) (by rfl)).1,
   (DoBackend_runs_kinds_in_order oneAddress background
        (scriptedConn (List.replicate 13 none ++ [some unavailable])) []).2.2.1 unavailable
        (callsOn background (nvmfRequests "203.0.113.5"))
        (callsOn background (nvmfRequests "203.0.113.5" ++ nullDebugRequests))
        (callsOn background
          (nvmfRequests "203.0.113.5" ++ nullDebugRequests ++ aioRequests.take 2))
        (by rfl) (by rfl) (by rfl),
   (DoBackend_runs_kinds_in_order oneAddress background (scriptedConn []) []).2.2.2.1.mpr
      ⟨callsOn background (nvmfRequests "203.0.113.5"),
       callsOn background (nvmfRequests "203.0.113.5" ++ nullDebugRequests),
       callsOn background (nvmfRequests "203.0.113.5" ++ nullDebugRequests ++ aioRequests),
       by rfl, by rfl, by rfl⟩⟩

/-! ## C2, C3, C10: a Get answer without `Handle` faults the lifecycle -/

/-- C2. Evaluation at a failing input.  On a null-debug client (and likewise an AIO
client) whose first four calls succeed, whose Get answer carries no `Handle`, and
whose fifth call (Stats) returns the error `unavailable`, the lifecycle does not
return `unavailable` after five calls: it faults with a nil dereference after four
calls, the Stats call never being made. -/
theorem executeNullDebug_faults_before_failing_stats :
    ((scriptedNullClient [none, none, none, none, some unavailable]
        (some nullDebugWithoutHandle) (some {})).errs background []).take 5 =
      [none, none, none, none, some unavailable] ∧
    executeNullDebug background
        (scriptedNullClient [none, none, none, none, some unavailable]
          (some nullDebugWithoutHandle) (some {})) [] =
      ⟨callsOn background (nullDebugRequests.take 4), .panicked .nilDereference⟩ ∧
    ((scriptedAioClient [none, none, none, none, some unavailable]
        (some aioWithoutHandle) (some {})).errs background []).take 5 =
      [none, none, none, none, some unavailable] ∧
    executeAioController background
        (scriptedAioClient [none, none, none, none, some unavailable]
          (some aioWithoutHandle) (some {})) [] =
      ⟨callsOn background (aioRequests.take 4), .panicked .nilDereference⟩ := by
  refine ⟨by rfl, by rfl, by rfl, by rfl⟩

/-- C3. Evaluation at a failing input.  On a null-debug client (and likewise an AIO
client) all of whose six calls succeed and whose Get answer carries no `Handle`,
the lifecycle does not return nil after six calls: it faults with a nil
dereference and its record holds four calls. -/
theorem executeNullDebug_all_succeed_faults :
    (scriptedNullClient [] (some nullDebugWithoutHandle) (some {})).errs background [] =
      List.replicate 6 none ∧
    executeNullDebug background
        (scriptedNullClient [] (some nullDebugWithoutHandle) (some {})) [] =
      ⟨callsOn background (nullDebugRequests.take 4), .panicked .nilDereference⟩ ∧
    (scriptedAioClient [] (some aioWithoutHandle) (some {})).errs background [] =
      List.replicate 6 none ∧
    executeAioController background
        (scriptedAioClient [] (some aioWithoutHandle) (some {})) [] =
      ⟨callsOn background (aioRequests.take 4), .panicked .nilDereference⟩ := by
  refine ⟨by rfl, by rfl, by rfl, by rfl⟩

/-- C10. Evaluation at failing inputs.  With every call succeeding, `executeNullDebug`
and `executeAioController` fault with a nil dereference when the Get answer is nil
or carries no `Handle` (after four calls) and when the Stats answer is nil (after
five calls); `executeNVMfRemoteController` faults with an index out of range, before
any call, when the lookup succeeds with an empty address list. -/
theorem lifecycles_fault_on_absent_values :
    (executeNullDebug background
        (scriptedNullClient [] (some nullDebugWithoutHandle) (some {})) []).outcome =
      .panicked .nilDereference ∧
    (executeNullDebug background (scriptedNullClient [] none (some {})) []).outcome =
      .panicked .nilDereference ∧
    executeNullDebug background
        (scriptedNullClient [] (some { Handle := some ⟨"OpiNull9"⟩ }) none) [] =
      ⟨callsOn background (nullDebugRequests.take 5), .panicked .nilDereference⟩ ∧
    (executeAioController background
        (scriptedAioClient [] (some aioWithoutHandle) (some {})) []).outcome =
      .panicked .nilDereference ∧
    (executeAioController background (scriptedAioClient [] none (some {})) []).outcome =
      .panicked .nilDereference ∧
    executeAioController background
        (scriptedAioClient [] (some { Handle := some ⟨"OpiAio4"⟩ }) none) [] =
      ⟨callsOn background (aioRequests.take 5), .panicked .nilDereference⟩ ∧
    executeNVMfRemoteController (fun _ => ([], none)) background
        (scriptedNVMfClient [] "OpiNvme8") [] =
      ⟨[], .panicked .indexOutOfRange⟩ := by
  refine ⟨by rfl, by rfl, by rfl, by rfl, by rfl, by rfl, by rfl⟩

/-! ## C4: the second step of each lifecycle -/

/-- When the Create call returns no error, `executeNullDebug` issues a second
request, and that request is the Update of the created specification. -/
theorem executeNullDebug_second_issued (ctx : Context) (c1 : NullDebugServiceClient)
    (h0 : List Call) (h : (c1.errs ctx h0)[0]? = some none) :
    ((executeNullDebug ctx c1 h0).issued h0)[0]? = some
        (.CreateNullDebug { NullDebug := some { Handle := some ⟨"OpiNull9"⟩ } }) ∧
    ((executeNullDebug ctx c1 h0).issued h0)[1]? = some
        (.UpdateNullDebug { NullDebug := some { Handle := some ⟨"OpiNull9"⟩ } }) := by
  simp only [NullDebugServiceClient.errs, List.getElem?_cons_zero, Option.some.injEq] at h
  simp only [executeNullDebug, h]
  repeat' split
  all_goals simp [Run.issued]

/-- When the Create call returns no error, `executeAioController` issues a second
request, and that request is the Update of the created specification. -/
theorem executeAioController_second_issued (ctx : Context)
    (c2 : AioControllerServiceClient) (h0 : List Call)
    (h : (c2.errs ctx h0)[0]? = some none) :
    ((executeAioController ctx c2 h0).issued h0)[0]? = some
        (.CreateAioController
          { AioController := some
              { Handle := some ⟨"OpiAio4"⟩, Filename := "/tmp/aio_bdev_file" } }) ∧
    ((executeAioController ctx c2 h0).issued h0)[1]? = some
        (.UpdateAioController
          { AioController := some
              { Handle := some ⟨"OpiAio4"⟩, Filename := "/tmp/aio_bdev_file" } }) := by
  simp only [AioControllerServiceClient.errs, List.getElem?_cons_zero, Option.some.injEq] at h
  simp only [executeAioController, h]
  repeat' split
  all_goals simp [Run.issued]

/-- When the lookup yields an address and the Create call returns no error,
`executeNVMfRemoteController` issues a second request, and that request is the Reset
of `OpiNvme8`. -/
theorem executeNVMfRemoteController_second_issued (LookupIP : Resolver) (ctx : Context)
    (c4 : NVMfRemoteControllerServiceClient) (h0 : List Call) (a : IP) (rest : List IP)
    (hL : LookupIP "spdk" = (a :: rest, none))
    (h : (c4.errs ctx h0 a.String)[0]? = some none) :
    (((executeNVMfRemoteController LookupIP ctx c4 h0).issued h0)[0]?).map Request.op
        = some .create ∧
    (((executeNVMfRemoteController LookupIP ctx c4 h0).issued h0)[0]?).bind Request.ident
        = some "OpiNvme8" ∧
    ((executeNVMfRemoteController LookupIP ctx c4 h0).issued h0)[1]? = some
        (.NVMfRemoteControllerReset { Id := some ⟨"OpiNvme8"⟩ }) := by
  simp only [NVMfRemoteControllerServiceClient.errs, List.getElem?_cons_zero,
    Option.some.injEq] at h
  simp only [executeNVMfRemoteController, hL, h]
  repeat' split
  all_goals simp [Run.issued, Request.op, Request.ident]

/-- C4, refuted at an explicit input.  On an NVMf client all of whose calls succeed
the lifecycle returns nil, its second request is the Reset of `OpiNvme8`, which is
not an Update and submits no specification, and the operations issued are Create,
Reset, List, Get, Stats, Delete, not Create, Update, List, Get, Stats, Delete. -/
theorem nvmf_second_step_is_not_update :
    (executeNVMfRemoteController oneAddress background
        (scriptedNVMfClient [] "OpiNvme8") []).outcome = .returned none ∧
    ((executeNVMfRemoteController oneAddress background
        (scriptedNVMfClient [] "OpiNvme8") []).issued [])[1]? =
      some (.NVMfRemoteControllerReset { Id := some ⟨"OpiNvme8"⟩ }) ∧
    (Request.NVMfRemoteControllerReset { Id := some ⟨"OpiNvme8"⟩ }).op ≠ .update ∧
    (Request.NVMfRemoteControllerReset { Id := some ⟨"OpiNvme8"⟩ }).spec = none ∧
    ((executeNVMfRemoteController oneAddress background
        (scriptedNVMfClient [] "OpiNvme8") []).issued []).map Request.op =
      [.create, .reset, .list, .get, .stats, .delete] ∧
    ¬ (((executeNVMfRemoteController oneAddress background
          (scriptedNVMfClient [] "OpiNvme8") []).issued []).map Request.op =
        [.create, .update, .list, .get, .stats, .delete]) := by
  decide

/-- C4, amended.  For the null debug device and the AIO controller the second step
is an Update call that resubmits the specification of the Create request against
the same identifier: it is issued whenever Create returns no error, and the
operations issued by a run that returns nil are exactly Create, Update, List, Get,
Stats, Delete.  For the NVMf remote controller the second step is the Reset request
for `OpiNvme8`, which carries the identifier of the Create request and no
specification: it is issued whenever the lookup yields an address and Create
returns no error, and the operations issued by a run that returns nil are exactly
Create, Reset, List, Get, Stats, Delete.  A run that ends early issues an initial
part of the sequence of its kind. -/
theorem second_step_by_kind (LookupIP : Resolver) (ctx : Context)
    (c4 : NVMfRemoteControllerServiceClient) (c1 : NullDebugServiceClient)
    (c2 : AioControllerServiceClient) (h0 : List Call) (a : IP) (rest : List IP) :
    (((executeNullDebug ctx c1 h0).outcome = .returned none →
        ((executeNullDebug ctx c1 h0).issued h0).map Request.op =
          [.create, .update, .list, .get, .stats, .delete]) ∧
      ((c1.errs ctx h0)[0]? = some none →
        ∃ r0 r1, ((executeNullDebug ctx c1 h0).issued h0)[0]? = some r0 ∧
          ((executeNullDebug ctx c1 h0).issued h0)[1]? = some r1 ∧
          r0.op = .create ∧ r1.op = .update ∧ r1.spec = r0.spec ∧ r1.spec.isSome = true ∧
          r1.ident = r0.ident) ∧
      ((executeNullDebug ctx c1 h0).issued h0).map Request.op <+:
        [.create, .update, .list, .get, .stats, .delete]) ∧
    (((executeAioController ctx c2 h0).outcome = .returned none →
        ((executeAioController ctx c2 h0).issued h0).map Request.op =
          [.create, .update, .list, .get, .stats, .delete]) ∧
      ((c2.errs ctx h0)[0]? = some none →
        ∃ r0 r1, ((executeAioController ctx c2 h0).issued h0)[0]? = some r0 ∧
          ((executeAioController ctx c2 h0).issued h0)[1]? = some r1 ∧
          r0.op = .create ∧ r1.op = .update ∧ r1.spec = r0.spec ∧ r1.spec.isSome = true ∧
          r1.ident = r0.ident) ∧
      ((executeAioController ctx c2 h0).issued h0).map Request.op <+:
        [.create, .update, .list, .get, .stats, .delete]) ∧
    (((executeNVMfRemoteController LookupIP ctx c4 h0).outcome = .returned none →
        ((executeNVMfRemoteController LookupIP ctx c4 h0).issued h0).map Request.op =
          [.create, .reset, .list, .get, .stats, .delete]) ∧
      (LookupIP "spdk" = (a :: rest, none) → (c4.errs ctx h0 a.String)[0]? = some none →
        ∃ r0 r1, ((executeNVMfRemoteController LookupIP ctx c4 h0).issued h0)[0]? = some r0 ∧
          ((executeNVMfRemoteController LookupIP ctx c4 h0).issued h0)[1]? = some r1 ∧
          r0.op = .create ∧
          r1 = .NVMfRemoteControllerReset { Id := some ⟨"OpiNvme8"⟩ } ∧
          r1.op = .reset ∧ r1.spec = none ∧ r1.ident = r0.ident) ∧
      ((executeNVMfRemoteController LookupIP ctx c4 h0).issued h0).map Request.op <+:
        [.create, .reset, .list, .get, .stats, .delete]) := by
  obtain ⟨n1, _, hn1, hi1, _, hs1⟩ := executeNullDebug_issued ctx c1 h0
  obtain ⟨n2, _, hn2, hi2, _, hs2⟩ := executeAioController_issued ctx c2 h0
  obtain ⟨n4, hn4, hi4, _, hs4⟩ := executeNVMfRemoteController_issued LookupIP ctx c4 h0
  refine ⟨⟨?_, ?_, ?_⟩, ⟨?_, ?_, ?_⟩, ⟨?_, ?_, ?_⟩⟩
  · intro ho
    rw [hi1, hs1 ho]
    rfl
  · intro hc
    obtain ⟨e0, e1⟩ := executeNullDebug_second_issued ctx c1 h0 hc
    exact ⟨_, _, e0, e1, by decide⟩
  · rw [hi1, List.map_take]
    exact List.take_prefix _ _
  · intro ho
    rw [hi2, hs2 ho]
    rfl
  · intro hc
    obtain ⟨e0, e1⟩ := executeAioController_second_issued ctx c2 h0 hc
    exact ⟨_, _, e0, e1, by decide⟩
  · rw [hi2, List.map_take]
    exact List.take_prefix _ _
  · intro ho
    rw [hi4, hs4 ho]
    rfl
  · intro hL hc
    obtain ⟨e0, e0', e1⟩ :=
      executeNVMfRemoteController_second_issued LookupIP ctx c4 h0 a rest hL hc
    cases hr0 : ((executeNVMfRemoteController LookupIP ctx c4 h0).issued h0)[0]? with
    | none => rw [hr0] at e0; exact absurd e0 (by simp)
    | some r0 =>
      rw [hr0] at e0 e0'
      simp only [Option.map_some', Option.some.injEq, Option.some_bind] at e0 e0'
      exact ⟨r0, _, rfl, e1, e0, rfl, rfl, rfl, by rw [e0']; rfl⟩
  · rw [hi4, List.map_take]
    exact List.take_prefix _ _

/-- C4 amended, at explicit inputs: on clients all of whose calls succeed the
null-debug and AIO runs issue exactly Create, Update, List, Get, Stats, Delete and
the NVMf run issues exactly Create, Reset, List, Get, Stats, Delete; on a null-debug
client whose Update fails, the Update is still the second request issued. -/
theorem second_step_by_kind_witness :
    ((executeNullDebug background
        (scriptedNullClient [] (some { Handle := some ⟨"OpiNull9"⟩ }) (some {})) []).issued
        []).map Request.op = [.create, .update, .list, .get, .stats, .delete] ∧
    ((executeAioController background
        (scriptedAioClient [] (some { Handle := some ⟨"OpiAio4"⟩ }) (some {})) []).issued
        []).map Request.op = [.create, .update, .list, .get, .stats, .delete] ∧
    ((executeNVMfRemoteController oneAddress background
        (scriptedNVMfClient [] "OpiNvme8") []).issued
        []).map Request.op = [.create, .reset, .list, .get, .stats, .delete] ∧
    (∃ r0 r1,
      ((executeNullDebug background
          (scriptedNullClient [none, some unavailable] none none) []).issued [])[0]? = some r0 ∧
      ((executeNullDebug background
          (scriptedNullClient [none, some unavailable] none none) []).issued [])[1]? = some r1 ∧
      r0.op = .create ∧ r1.op = .update ∧ r1.spec = r0.spec ∧ r1.spec.isSome = true ∧
      r1.ident = r0.ident) :=
  have h := second_step_by_kind oneAddress background (scriptedNVMfClient [] "OpiNvme8")
    (scriptedNullClient [] (some { Handle := some ⟨"OpiNull9"⟩ }) (some {}))
    (scriptedAioClient [] (some { Handle := some ⟨"OpiAio4"⟩ }) (some {})) []
    ⟨"203.0.113.5"⟩ []
  ⟨h.1.1 (by rfl), h.2.1.1 (by rfl), h.2.2.1 (by rfl),
    (second_step_by_kind oneAddress background (scriptedNVMfClient [] "OpiNvme8")
      (scriptedNullClient [none, some unavailable] none none)
      (scriptedAioClient [] (some { Handle := some ⟨"OpiAio4"⟩ }) (some {})) []
      ⟨"203.0.113.5"⟩ []).1.2.1 (by rfl)⟩

/-! ## C5: the identifier is stable within a lifecycle -/

/-- C5. Whatever the clients answer, every request a lifecycle issues other than its
List request carries the identifier of its kind (`OpiNvme8` for NVMf, `OpiNull9` for
null debug, `OpiAio4` for AIO), which is the identifier of its Create request, and
its List request is the empty request.  The null-debug and AIO lifecycles always
issue their Create request first.  Requests of different kinds that carry an
identifier carry different identifiers. -/
theorem identifier_stable (LookupIP : Resolver) (ctx : Context)
    (c4 : NVMfRemoteControllerServiceClient) (c1 : NullDebugServiceClient)
    (c2 : AioControllerServiceClient) (h4 h1 h2 : List Call) :
    (∀ r ∈ (executeNVMfRemoteController LookupIP ctx c4 h4).issued h4,
      (r.op ≠ .list → r.ident = some "OpiNvme8") ∧
      (r.op = .list → r = .ListNVMfRemoteControllers {})) ∧
    (∀ r ∈ (executeNullDebug ctx c1 h1).issued h1,
      (r.op ≠ .list → r.ident = some "OpiNull9") ∧
      (r.op = .list → r = .ListNullDebugs {})) ∧
    (∀ r ∈ (executeAioController ctx c2 h2).issued h2,
      (r.op ≠ .list → r.ident = some "OpiAio4") ∧
      (r.op = .list → r = .ListAioControllers {})) ∧
    ((executeNullDebug ctx c1 h1).issued h1).head? = some
      (.CreateNullDebug { NullDebug := some { Handle := some ⟨"OpiNull9"⟩ } }) ∧
    ((executeAioController ctx c2 h2).issued h2).head? = some
      (.CreateAioController
        { AioController := some
            { Handle := some ⟨"OpiAio4"⟩, Filename := "/tmp/aio_bdev_file" } }) ∧
    (∀ r4 ∈ (executeNVMfRemoteController LookupIP ctx c4 h4).issued h4,
      ∀ r1 ∈ (executeNullDebug ctx c1 h1).issued h1,
      ∀ r2 ∈ (executeAioController ctx c2 h2).issued h2,
        r4.op ≠ .list → r1.op ≠ .list → r2.op ≠ .list →
          r4.ident ≠ r1.ident ∧ r4.ident ≠ r2.ident ∧ r1.ident ≠ r2.ident) := by
  obtain ⟨n1, hp1, hn1, hi1, _, _⟩ := executeNullDebug_issued ctx c1 h1
  obtain ⟨n2, hp2, hn2, hi2, _, _⟩ := executeAioController_issued ctx c2 h2
  obtain ⟨n4, hn4, hi4, _, _⟩ := executeNVMfRemoteController_issued LookupIP ctx c4 h4
  rw [hi1, hi2, hi4]
  have k4 : ∀ r ∈ (nvmfRequests (lookupTraddr LookupIP)).take n4, _ :=
    fun r hr => nvmfRequests_ident _ r (List.mem_of_mem_take hr)
  have k1 : ∀ r ∈ nullDebugRequests.take n1, _ :=
    fun r hr => nullDebugRequests_ident r (List.mem_of_mem_take hr)
  have k2 : ∀ r ∈ aioRequests.take n2, _ :=
    fun r hr => aioRequests_ident r (List.mem_of_mem_take hr)
  refine ⟨k4, k1, k2, ?_, ?_, ?_⟩
  · interval_cases n1 <;> rfl
  · interval_cases n2 <;> rfl
  · intro r4 m4 r1 m1 r2 m2 o4 o1 o2
    rw [(k4 r4 m4).1 o4, (k1 r1 m1).1 o1, (k2 r2 m2).1 o2]
    decide

/-! ## C6: response identifiers are not compared -/

/-- C6, refuted at an explicit input.  On a null-debug client all of whose calls
succeed and whose Get answers with a resource named `SomethingElse`, the lifecycle
returns nil although the Get response does not carry `OpiNull9`. -/
theorem executeNullDebug_accepts_foreign_identifier :
    ¬ ((executeNullDebug background foreignNullClient []).outcome = .returned none →
        ((foreignNullClient.getResp background []).bind (·.Handle)).map (·.Value) =
          some "OpiNull9") := by
  decide

/-- C6, amended.  The lifecycles do not compare the identifiers in the responses
with the identifier used at creation.  If the lookup yields an address and all six
NVMf calls return no error, `executeNVMfRemoteController` returns nil whatever the
responses hold.  If all six calls return no error, the Get response carries a
`Handle` with any value `k1` (resp. `k2`) and the Stats response is not nil, then
`executeNullDebug` (resp. `executeAioController`) returns nil after its six calls. -/
theorem lifecycles_ignore_response_identifiers (LookupIP : Resolver) (ctx : Context)
    (c4 : NVMfRemoteControllerServiceClient) (c1 : NullDebugServiceClient)
    (c2 : AioControllerServiceClient) (h0 : List Call) (a : IP) (rest : List IP)
    (m1 : NullDebug) (k1 : ObjectKey) (m2 : AioController) (k2 : ObjectKey) :
    (LookupIP "spdk" = (a :: rest, none) →
      c4.errs ctx h0 a.String = List.replicate 6 none →
      executeNVMfRemoteController LookupIP ctx c4 h0 =
        ⟨h0 ++ callsOn ctx (nvmfRequests a.String), .returned none⟩) ∧
    (c1.errs ctx h0 = List.replicate 6 none →
      c1.getResp ctx h0 = some m1 → m1.Handle = some k1 →
      c1.statsLoggable ctx h0 = true →
      executeNullDebug ctx c1 h0 = ⟨h0 ++ callsOn ctx nullDebugRequests, .returned none⟩) ∧
    (c2.errs ctx h0 = List.replicate 6 none →
      c2.getResp ctx h0 = some m2 → m2.Handle = some k2 →
      c2.statsLoggable ctx h0 = true →
      executeAioController ctx c2 h0 = ⟨h0 ++ callsOn ctx aioRequests, .returned none⟩) := by
  refine ⟨?_, ?_, ?_⟩
  · intro hL hok
    exact executeNVMfRemoteController_succeeds LookupIP ctx c4 h0 a rest hL hok
  · intro hok hg hh hs
    exact executeNullDebug_succeeds ctx c1 h0 hok
      (by simp [NullDebugServiceClient.getLoggable, hg, hh]) hs
  · intro hok hg hh hs
    exact executeAioController_succeeds ctx c2 h0 hok
      (by simp [AioControllerServiceClient.getLoggable, hg, hh]) hs

/-- C6 amended, at explicit inputs: clients whose Get answers with a resource named
`SomethingElse` let all three lifecycles return nil after six calls. -/
theorem lifecycles_ignore_response_identifiers_witness :
    executeNVMfRemoteController oneAddress background
        (scriptedNVMfClient [] "SomethingElse") [] =
      ⟨[] ++ callsOn background (nvmfRequests "203.0.113.5"), .returned none⟩ ∧
    executeNullDebug background foreignNullClient [] =
      ⟨[] ++ callsOn background nullDebugRequests, .returned none⟩ ∧
    executeAioController background foreignAioClient [] =
      ⟨[] ++ callsOn background aioRequests, .returned none⟩ :=
  have h := lifecycles_ignore_response_identifiers oneAddress background
    (scriptedNVMfClient [] "SomethingElse") foreignNullClient foreignAioClient []
    ⟨"203.0.113.5"⟩ [] { Handle := some ⟨"SomethingElse"⟩ } ⟨"SomethingElse"⟩
    { Handle := some ⟨"SomethingElse"⟩ } ⟨"SomethingElse"⟩
  ⟨h.1 (by rfl) (by rfl), h.2.1 (by rfl) (by rfl) (by rfl) (by rfl),
    h.2.2 (by rfl) (by rfl) (by rfl) (by rfl)⟩

/-! ## C7: a failure is returned without the step that failed -/

/-- C7, refuted at an explicit input.  A null-debug lifecycle whose Create call
fails with `unavailable` and one whose Update call fails with `unavailable` return
the same value. -/
theorem executeNullDebug_same_error_same_result :
    ¬ ((executeNullDebug background
          (scriptedNullClient [some unavailable] none none) []).outcome ≠
        (executeNullDebug background
          (scriptedNullClient [none, some unavailable] none none) []).outcome) := by
  decide

/-- C7, amended.  When call number `i` of a lifecycle is the first to fail, with
error `e`, the function returns `e` itself and nothing else: a run of the same
lifecycle in which call number `j` is the first to fail with the same `e` returns an
equal value, so the failing step cannot be read off the returned value.  It can be
read off the call record, which holds `i + 1` calls in the first run and `j + 1` in
the second. -/
theorem failure_returned_bare (LookupIP LookupIP' : Resolver) (ctx : Context)
    (h0 : List Call) (i j : Nat) (e : GoError) :
    (∀ (c4 c4' : NVMfRemoteControllerServiceClient) (a a' : IP) (rest rest' : List IP),
      LookupIP "spdk" = (a :: rest, none) → LookupIP' "spdk" = (a' :: rest', none) →
      c4.FailsAt ctx h0 a.String i e → c4'.FailsAt ctx h0 a'.String j e →
        (executeNVMfRemoteController LookupIP ctx c4 h0).outcome = .returned (some e) ∧
        (executeNVMfRemoteController LookupIP' ctx c4' h0).outcome =
          (executeNVMfRemoteController LookupIP ctx c4 h0).outcome ∧
        (executeNVMfRemoteController LookupIP ctx c4 h0).calls.length = h0.length + (i + 1) ∧
        (executeNVMfRemoteController LookupIP' ctx c4' h0).calls.length
          = h0.length + (j + 1)) ∧
    (∀ (c1 c1' : NullDebugServiceClient),
      c1.FailsAt ctx h0 i e → c1'.FailsAt ctx h0 j e →
        (executeNullDebug ctx c1 h0).outcome = .returned (some e) ∧
        (executeNullDebug ctx c1' h0).outcome = (executeNullDebug ctx c1 h0).outcome ∧
        (executeNullDebug ctx c1 h0).calls.length = h0.length + (i + 1) ∧
        (executeNullDebug ctx c1' h0).calls.length = h0.length + (j + 1)) ∧
    (∀ (c2 c2' : AioControllerServiceClient),
      c2.FailsAt ctx h0 i e → c2'.FailsAt ctx h0 j e →
        (executeAioController ctx c2 h0).outcome = .returned (some e) ∧
        (executeAioController ctx c2' h0).outcome = (executeAioController ctx c2 h0).outcome ∧
        (executeAioController ctx c2 h0).calls.length = h0.length + (i + 1) ∧
        (executeAioController ctx c2' h0).calls.length = h0.length + (j + 1)) := by
  have len : ∀ (rs : List Request) (k : Nat), k < 6 → rs.length = 6 →
      (h0 ++ callsOn ctx (rs.take (k + 1))).length = h0.length + (k + 1) := by
    intro rs k hk hl
    simp [callsOn, hl]
    omega
  refine ⟨?_, ?_, ?_⟩
  · intro c4 c4' a a' rest rest' hL hL' ⟨hi, hok, hf⟩ ⟨hj, hok', hf'⟩
    rw [executeNVMfRemoteController_fails_at LookupIP ctx c4 h0 a rest i e hi hL hok hf,
      executeNVMfRemoteController_fails_at LookupIP' ctx c4' h0 a' rest' j e hj hL' hok' hf']
    exact ⟨rfl, rfl, len _ i hi rfl, len _ j hj rfl⟩
  · intro c1 c1' ⟨hi, hok, hf, hg, hs⟩ ⟨hj, hok', hf', hg', hs'⟩
    rw [executeNullDebug_fails_at ctx c1 h0 i e hi hok hf hg hs,
      executeNullDebug_fails_at ctx c1' h0 j e hj hok' hf' hg' hs']
    exact ⟨rfl, rfl, len _ i hi rfl, len _ j hj rfl⟩
  · intro c2 c2' ⟨hi, hok, hf, hg, hs⟩ ⟨hj, hok', hf', hg', hs'⟩
    rw [executeAioController_fails_at ctx c2 h0 i e hi hok hf hg hs,
      executeAioController_fails_at ctx c2' h0 j e hj hok' hf' hg' hs']
    exact ⟨rfl, rfl, len _ i hi rfl, len _ j hj rfl⟩

/-- C7 amended, at explicit inputs: null-debug runs failing at Create and at Get with
`unavailable` both return `unavailable`; they differ in the number of calls
recorded (1 and 4).  Likewise for NVMf and AIO runs failing at Create and at List. -/
theorem failure_returned_bare_witness :
    ((executeNullDebug background (scriptedNullClient [some unavailable] none none) []).outcome
        = .returned (some unavailable) ∧
      (executeNullDebug background
          (scriptedNullClient [none, none, none, some unavailable] none none) []).outcome =
        (executeNullDebug background
          (scriptedNullClient [some unavailable] none none) []).outcome ∧
      (executeNullDebug background
          (scriptedNullClient [some unavailable] none none) []).calls.length = 0 + (0 + 1) ∧
      (executeNullDebug background
          (scriptedNullClient [none, none, none, some unavailable] none none) []).calls.length
        = 0 + (3 + 1)) ∧
    (executeNVMfRemoteController oneAddress background
        (scriptedNVMfClient [none, none, some unavailable] "OpiNvme8") []).outcome =
      (executeNVMfRemoteController oneAddress background
        (scriptedNVMfClient [some unavailable] "OpiNvme8") []).outcome ∧
    (executeAioController background
        (scriptedAioClient [none, none, some unavailable] none none) []).outcome =
      (executeAioController background
        (scriptedAioClient [some unavailable] none none) []).outcome :=
  ⟨(failure_returned_bare oneAddress oneAddress background [] 0 3 unavailable).2.1
      (scriptedNullClient [some unavailable] none none)
      (scriptedNullClient [none, none, none, some unavailable] none none)
      ⟨by decide, by rfl, by rfl, by decide, by decide⟩
      ⟨by decide, by rfl, by rfl, by decide, by decide⟩,
   ((failure_returned_bare oneAddress oneAddress background [] 0 2 unavailable).1
      (scriptedNVMfClient [some unavailable] "OpiNvme8")
      (scriptedNVMfClient [none, none, some unavailable] "OpiNvme8")
      ⟨"203.0.113.5"⟩ ⟨"203.0.113.5"⟩ [] [] (by rfl) (by rfl)
      ⟨by decide, by rfl, by rfl⟩ ⟨by decide, by rfl, by rfl⟩).2.1,
   ((failure_returned_bare oneAddress oneAddress background [] 0 2 unavailable).2.2
      (scriptedAioClient [some unavailable] none none)
      (scriptedAioClient [none, none, some unavailable] none none)
      ⟨by decide, by rfl, by rfl, by decide, by decide⟩
      ⟨by decide, by rfl, by rfl, by decide, by decide⟩).2.1⟩

/-! ## C8: cancellation -/

/-- In a null-debug run of `m` calls the first `m - 1` calls returned no error, and
in a run that returns nil none of the six did. -/
theorem executeNullDebug_ok_before (ctx : Context) (c1 : NullDebugServiceClient) (h0 : List Call) :
    ∃ m, 1 ≤ m ∧ m ≤ 6 ∧
      (executeNullDebug ctx c1 h0).calls = h0 ++ callsOn ctx ((nullDebugRequests).take m) ∧
      (c1.errs ctx h0).take (m - 1) = List.replicate (m - 1) none ∧
      ((executeNullDebug ctx c1 h0).outcome = .returned none →
        c1.errs ctx h0 = List.replicate 6 none) := by
  simp only [executeNullDebug]
  repeat' split
  all_goals first
    | (refine ⟨1, by decide, by decide, ?_, ?_, ?_⟩ <;> (simp_all [callsOn, nullDebugRequests, NullDebugServiceClient.errs, List.replicate, lookupTraddr]; done))
    | (refine ⟨2, by decide, by decide, ?_, ?_, ?_⟩ <;> (simp_all [callsOn, nullDebugRequests, NullDebugServiceClient.errs, List.replicate, lookupTraddr]; done))
    | (refine ⟨3, by decide, by decide, ?_, ?_, ?_⟩ <;> (simp_all [callsOn, nullDebugRequests, NullDebugServiceClient.errs, List.replicate, lookupTraddr]; done))
    | (refine ⟨4, by decide, by decide, ?_, ?_, ?_⟩ <;> (simp_all [callsOn, nullDebugRequests, NullDebugServiceClient.errs, List.replicate, lookupTraddr]; done))
    | (refine ⟨5, by decide, by decide, ?_, ?_, ?_⟩ <;> (simp_all [callsOn, nullDebugRequests, NullDebugServiceClient.errs, List.replicate, lookupTraddr]; done))
    | (refine ⟨6, by decide, by decide, ?_, ?_, ?_⟩ <;> (simp_all [callsOn, nullDebugRequests, NullDebugServiceClient.errs, List.replicate, lookupTraddr]; done))

/-- In an AIO run of `m` calls the first `m - 1` calls returned no error, and in a
run that returns nil none of the six did. -/
theorem executeAioController_ok_before (ctx : Context) (c2 : AioControllerServiceClient) (h0 : List Call) :
    ∃ m, 1 ≤ m ∧ m ≤ 6 ∧
      (executeAioController ctx c2 h0).calls = h0 ++ callsOn ctx ((aioRequests).take m) ∧
      (c2.errs ctx h0).take (m - 1) = List.replicate (m - 1) none ∧
      ((executeAioController ctx c2 h0).outcome = .returned none →
        c2.errs ctx h0 = List.replicate 6 none) := by
  simp only [executeAioController]
  repeat' split
  all_goals first
    | (refine ⟨1, by decide, by decide, ?_, ?_, ?_⟩ <;> (simp_all [callsOn, aioRequests, AioControllerServiceClient.errs, List.replicate, lookupTraddr]; done))
    | (refine ⟨2, by decide, by decide, ?_, ?_, ?_⟩ <;> (simp_all [callsOn, aioRequests, AioControllerServiceClient.errs, List.replicate, lookupTraddr]; done))
    | (refine ⟨3, by decide, by decide, ?_, ?_, ?_⟩ <;> (simp_all [callsOn, aioRequests, AioControllerServiceClient.errs, List.replicate, lookupTraddr]; done))
    | (refine ⟨4, by decide, by decide, ?_, ?_, ?_⟩ <;> (simp_all [callsOn, aioRequests, AioControllerServiceClient.errs, List.replicate, lookupTraddr]; done))
    | (refine ⟨5, by decide, by decide, ?_, ?_, ?_⟩ <;> (simp_all [callsOn, aioRequests, AioControllerServiceClient.errs, List.replicate, lookupTraddr]; done))
    | (refine ⟨6, by decide, by decide, ?_, ?_, ?_⟩ <;> (simp_all [callsOn, aioRequests, AioControllerServiceClient.errs, List.replicate, lookupTraddr]; done))

/-- In an NVMf run of `m` calls the first `m - 1` calls returned no error, and in a
run that returns nil none of the six did. -/
theorem executeNVMfRemoteController_ok_before (LookupIP : Resolver) (ctx : Context)
    (c4 : NVMfRemoteControllerServiceClient) (h0 : List Call) :
    ∃ m, m ≤ 6 ∧
      (executeNVMfRemoteController LookupIP ctx c4 h0).calls = h0 ++ callsOn ctx ((nvmfRequests (lookupTraddr LookupIP)).take m) ∧
      (c4.errs ctx h0 (lookupTraddr LookupIP)).take (m - 1) = List.replicate (m - 1) none ∧
      ((executeNVMfRemoteController LookupIP ctx c4 h0).outcome = .returned none →
        c4.errs ctx h0 (lookupTraddr LookupIP) = List.replicate 6 none) := by
  simp only [executeNVMfRemoteController]
  repeat' split
  all_goals first
    | (refine ⟨0, by decide, ?_, ?_, ?_⟩ <;> (simp_all [callsOn, nvmfRequests, NVMfRemoteControllerServiceClient.errs, List.replicate, lookupTraddr]; done))
    | (refine ⟨1, by decide, ?_, ?_, ?_⟩ <;> (simp_all [callsOn, nvmfRequests, NVMfRemoteControllerServiceClient.errs, List.replicate, lookupTraddr]; done))
    | (refine ⟨2, by decide, ?_, ?_, ?_⟩ <;> (simp_all [callsOn, nvmfRequests, NVMfRemoteControllerServiceClient.errs, List.replicate, lookupTraddr]; done))
    | (refine ⟨3, by decide, ?_, ?_, ?_⟩ <;> (simp_all [callsOn, nvmfRequests, NVMfRemoteControllerServiceClient.errs, List.replicate, lookupTraddr]; done))
    | (refine ⟨4, by decide, ?_, ?_, ?_⟩ <;> (simp_all [callsOn, nvmfRequests, NVMfRemoteControllerServiceClient.errs, List.replicate, lookupTraddr]; done))
    | (refine ⟨5, by decide, ?_, ?_, ?_⟩ <;> (simp_all [callsOn, nvmfRequests, NVMfRemoteControllerServiceClient.errs, List.replicate, lookupTraddr]; done))
    | (refine ⟨6, by decide, ?_, ?_, ?_⟩ <;> (simp_all [callsOn, nvmfRequests, NVMfRemoteControllerServiceClient.errs, List.replicate, lookupTraddr]; done))

theorem Context.Err_isSome_iff (ctx : Context) (n clock : Nat)
    (hn : ctx.cancelAfter = some n) : (ctx.Err clock).isSome = true ↔ n ≤ clock := by
  simp only [Context.Err, hn]
  split <;> simp_all

theorem take_none_getElem (l : List (Option GoError)) (m i : Nat) (hi : i < m)
    (h : l.take m = List.replicate m none) : l[i]? = some none := by
  have h' := congrArg (fun x => x[i]?) h
  simp only [List.getElem?_take, hi, if_true] at h'
  rw [h']
  simp [hi]

theorem nullDebug_honours_errs {c1 : NullDebugServiceClient}
    (hc : c1.HonoursCancel) (ctx : Context) (h0 : List Call) (i : Nat) (hi : i < 6)
    (hE : (ctx.Err (h0.length + i)).isSome = true) :
    (c1.errs ctx h0)[i]? ≠ some none := by
  have h := hc (h0 ++ (callsOn ctx nullDebugRequests).take i) ctx
    (by
      have : (h0 ++ (callsOn ctx nullDebugRequests).take i).length = h0.length + i := by
        simp [callsOn, nullDebugRequests]; omega
      rw [this]; exact hE)
  obtain ⟨a1, a2, a3, a4, a5, a6⟩ := h
  interval_cases i <;>
    simp only [NullDebugServiceClient.errs, List.getElem?_cons_zero, List.getElem?_cons_succ,
      ne_eq, Option.some.injEq, List.take_zero, List.append_nil] <;>
    intro hn
  · have := a1 { NullDebug := some { Handle := some { Value := "OpiNull9" } } }
    simp_all
  · have := a2 { NullDebug := some { Handle := some { Value := "OpiNull9" } } }
    simp_all
  · have := a3 {}
    simp_all
  · have := a4 { Name := "OpiNull9" }
    simp_all
  · have := a5 { Handle := some { Value := "OpiNull9" } }
    simp_all
  · have := a6 { Name := "OpiNull9" }
    simp_all

theorem aio_honours_errs
    {c2 : AioControllerServiceClient}
    (hc : c2.HonoursCancel) (ctx : Context) (h0 : List Call) (i : Nat) (hi : i < 6)
    (hE : (ctx.Err (h0.length + i)).isSome = true) :
    (c2.errs ctx h0)[i]? ≠ some none := by
  have h := hc (h0 ++ (callsOn ctx aioRequests).take i) ctx
    (by
      have : (h0 ++ (callsOn ctx aioRequests).take i).length = h0.length + i := by
        simp [callsOn, aioRequests]; omega
      rw [this]; exact hE)
  obtain ⟨a1, a2, a3, a4, a5, a6⟩ := h
  interval_cases i <;>
    simp only [AioControllerServiceClient.errs, List.getElem?_cons_zero,
      List.getElem?_cons_succ, ne_eq, Option.some.injEq, List.take_zero, List.append_nil] <;>
    intro hn
  · have := a1
      { AioController := some
          { Handle := some { Value := "OpiAio4" }, Filename := "/tmp/aio_bdev_file" } }
    simp_all
  · have := a2
      { AioController := some
          { Handle := some { Value := "OpiAio4" }, Filename := "/tmp/aio_bdev_file" } }
    simp_all
  · have := a3 {}
    simp_all
  · have := a4 { Name := "OpiAio4" }
    simp_all
  · have := a5 { Handle := some { Value := "OpiAio4" } }
    simp_all
  · have := a6 { Name := "OpiAio4" }
    simp_all

theorem nvmf_honours_errs
    {c4 : NVMfRemoteControllerServiceClient}
    (hc : c4.HonoursCancel) (ctx : Context) (h0 : List Call) (t : String) (i : Nat)
    (hi : i < 6) (hE : (ctx.Err (h0.length + i)).isSome = true) :
    (c4.errs ctx h0 t)[i]? ≠ some none := by
  have h := hc (h0 ++ (callsOn ctx (nvmfRequests t)).take i) ctx
    (by
      have : (h0 ++ (callsOn ctx (nvmfRequests t)).take i).length = h0.length + i := by
        simp [callsOn, nvmfRequests]; omega
      rw [this]; exact hE)
  obtain ⟨a1, a2, a3, a4, a5, a6⟩ := h
  interval_cases i <;>
    simp only [NVMfRemoteControllerServiceClient.errs, List.getElem?_cons_zero,
      List.getElem?_cons_succ, ne_eq, Option.some.injEq, List.take_zero, List.append_nil] <;>
    intro hn
  · have := a1
      { NvMfRemoteController := some
          { Id := some { Value := "OpiNvme8" }
            Trtype := NvmeTransportType_NVME_TRANSPORT_TCP
            Adrfam := NvmeAddressFamily_NVMF_ADRFAM_IPV4
            Traddr := t
            Trsvcid := 4444
            Subnqn := "nqn.2016-06.io.spdk:cnode1"
            Hostnqn := "nqn.2014-08.org.nvmexpress:uuid:feb98abe-d51f-40c8-b348-2753f3571d3c" } }
    simp_all
  · have := a2 { Id := some { Value := "OpiNvme8" } }
    simp_all
  · have := a3 {}
    simp_all
  · have := a4 { Name := "OpiNvme8" }
    simp_all
  · have := a5 { Id := some { Value := "OpiNvme8" } }
    simp_all
  · have := a6 { Name := "OpiNvme8" }
    simp_all

/-- Arithmetic core of the cancellation bound: when the first `m - 1` calls returned
no error and every call made at or after clock `n` returns one, the record ends at
length `max (n + 1) (len + 1)`, and six error-free calls force `len + 6 ≤ n`. -/
theorem cancel_bound_core (errs : List (Option GoError)) (len n m : Nat) (hm : m ≤ 6)
    (htake : errs.take (m - 1) = List.replicate (m - 1) none)
    (hon : ∀ i < 6, n ≤ len + i → errs[i]? ≠ some none) :
    len + m ≤ max (n + 1) (len + 1) ∧ (errs = List.replicate 6 none → len + 6 ≤ n) := by
  constructor
  · by_cases h2 : m ≤ 1
    · omega
    · have hget := take_none_getElem errs (m - 1) (m - 2) (by omega) htake
      have := hon (m - 2) (by omega)
      by_cases hle : n ≤ len + (m - 2)
      · exact absurd hget (this hle)
      · omega
  · intro hall
    have hget : errs[5]? = some none := by rw [hall]; rfl
    by_cases hle : n ≤ len + 5
    · exact absurd hget (hon 5 (by decide) hle)
    · omega

/-- With a client that fails calls on a cancelled context, a null-debug run makes no
call after the first one issued at or after the cancellation. -/
theorem executeNullDebug_cancel_bound (ctx : Context) (c1 : NullDebugServiceClient)
    (h0 : List Call) (n : Nat) (hn : ctx.cancelAfter = some n) (hc : c1.HonoursCancel) :
    (executeNullDebug ctx c1 h0).calls.length ≤ max (n + 1) (h0.length + 1) ∧
    ((executeNullDebug ctx c1 h0).outcome = .returned none → h0.length + 6 ≤ n) := by
  obtain ⟨m, h1, h6, hcalls, htake, hall⟩ := executeNullDebug_ok_before ctx c1 h0
  have core := cancel_bound_core (c1.errs ctx h0) h0.length n m h6 htake
    (fun i hi hle => nullDebug_honours_errs hc ctx h0 i hi ((ctx.Err_isSome_iff n _ hn).mpr hle))
  have hlen : (executeNullDebug ctx c1 h0).calls.length = h0.length + m := by
    rw [hcalls]; simp [callsOn, nullDebugRequests]; omega
  exact ⟨hlen ▸ core.1, fun ho => core.2 (hall ho)⟩

/-- With a client that fails calls on a cancelled context, an AIO run makes no call
after the first one issued at or after the cancellation. -/
theorem executeAioController_cancel_bound (ctx : Context) (c2 : AioControllerServiceClient)
    (h0 : List Call) (n : Nat) (hn : ctx.cancelAfter = some n) (hc : c2.HonoursCancel) :
    (executeAioController ctx c2 h0).calls.length ≤ max (n + 1) (h0.length + 1) ∧
    ((executeAioController ctx c2 h0).outcome = .returned none → h0.length + 6 ≤ n) := by
  obtain ⟨m, h1, h6, hcalls, htake, hall⟩ := executeAioController_ok_before ctx c2 h0
  have core := cancel_bound_core (c2.errs ctx h0) h0.length n m h6 htake
    (fun i hi hle => aio_honours_errs hc ctx h0 i hi ((ctx.Err_isSome_iff n _ hn).mpr hle))
  have hlen : (executeAioController ctx c2 h0).calls.length = h0.length + m := by
    rw [hcalls]; simp [callsOn, aioRequests]; omega
  exact ⟨hlen ▸ core.1, fun ho => core.2 (hall ho)⟩

/-- With a client that fails calls on a cancelled context, an NVMf run makes no call
after the first one issued at or after the cancellation. -/
theorem executeNVMfRemoteController_cancel_bound (LookupIP : Resolver) (ctx : Context)
    (c4 : NVMfRemoteControllerServiceClient) (h0 : List Call) (n : Nat)
    (hn : ctx.cancelAfter = some n) (hc : c4.HonoursCancel) :
    (executeNVMfRemoteController LookupIP ctx c4 h0).calls.length
      ≤ max (n + 1) (h0.length + 1) ∧
    ((executeNVMfRemoteController LookupIP ctx c4 h0).outcome = .returned none →
      h0.length + 6 ≤ n) := by
  obtain ⟨m, h6, hcalls, htake, hall⟩ :=
    executeNVMfRemoteController_ok_before LookupIP ctx c4 h0
  have core := cancel_bound_core (c4.errs ctx h0 (lookupTraddr LookupIP)) h0.length n m h6 htake
    (fun i hi hle => nvmf_honours_errs hc ctx h0 _ i hi ((ctx.Err_isSome_iff n _ hn).mpr hle))
  have hlen : (executeNVMfRemoteController LookupIP ctx c4 h0).calls.length = h0.length + m := by
    rw [hcalls]; simp [callsOn, nvmfRequests]; omega
  exact ⟨hlen ▸ core.1, fun ho => core.2 (hall ho)⟩

/-- The three ways `DoBackend` can end: in the NVMf lifecycle, in the null-debug
lifecycle entered after a nil return of the first, or with the AIO lifecycle
entered after nil returns of both. -/
theorem DoBackend_cases (LookupIP : Resolver) (ctx : Context) (conn : ClientConn)
    (h0 : List Call) :
    (DoBackend LookupIP ctx conn h0 = executeNVMfRemoteController LookupIP ctx conn.nvme h0 ∧
      (executeNVMfRemoteController LookupIP ctx conn.nvme h0).outcome ≠ .returned none) ∨
    ((executeNVMfRemoteController LookupIP ctx conn.nvme h0).outcome = .returned none ∧
      DoBackend LookupIP ctx conn h0 =
        executeNullDebug ctx conn.null
          (executeNVMfRemoteController LookupIP ctx conn.nvme h0).calls ∧
      (executeNullDebug ctx conn.null
          (executeNVMfRemoteController LookupIP ctx conn.nvme h0).calls).outcome
        ≠ .returned none) ∨
    ((executeNVMfRemoteController LookupIP ctx conn.nvme h0).outcome = .returned none ∧
      (executeNullDebug ctx conn.null
          (executeNVMfRemoteController LookupIP ctx conn.nvme h0).calls).outcome
        = .returned none ∧
      DoBackend LookupIP ctx conn h0 =
        executeAioController ctx conn.aio
          (executeNullDebug ctx conn.null
            (executeNVMfRemoteController LookupIP ctx conn.nvme h0).calls).calls) := by
  simp only [DoBackend, NewNVMfRemoteControllerServiceClient, NewNullDebugServiceClient,
    NewAioControllerServiceClient]
  split
  · rename_i h1 f hN; left; simp [hN]
  · rename_i h1 e hN; left; simp [hN]
  · rename_i h1 hN
    right
    simp only [hN]
    split
    · rename_i h2 f hU; left; simp [hU]
    · rename_i h2 e hU; left; simp [hU]
    · rename_i h2 hU
      right
      simp only [hU, true_and]
      split <;> rename_i hA <;> simp [hA]

theorem nullDebugRequests_take_no_delete (m : Nat) (hm : m ≤ 5) :
    ∀ r ∈ nullDebugRequests.take m, r.op ≠ .delete := by
  interval_cases m <;> decide

theorem aioRequests_take_no_delete (m : Nat) (hm : m ≤ 5) :
    ∀ r ∈ aioRequests.take m, r.op ≠ .delete := by
  interval_cases m <;> decide

theorem nvmfRequests_take_no_delete (t : String) (m : Nat) (hm : m ≤ 5) :
    ∀ r ∈ (nvmfRequests t).take m, r.op ≠ .delete := by
  interval_cases m <;> simp [nvmfRequests, Request.op]

theorem executeNullDebug_cancel_no_delete (ctx : Context) (c1 : NullDebugServiceClient)
    (n : Nat) (hn : ctx.cancelAfter = some n) (hc : c1.HonoursCancel) (h4 : n ≤ 4) :
    ∀ r ∈ (executeNullDebug ctx c1 []).issued [], r.op ≠ .delete := by
  obtain ⟨m, _, _, hcalls, _⟩ := executeNullDebug_shape ctx c1 []
  have hb := (executeNullDebug_cancel_bound ctx c1 [] n hn hc).1
  have hi : (executeNullDebug ctx c1 []).issued [] = nullDebugRequests.take m := by
    simp only [Run.issued, hcalls, drop_length_append_calls, map_req_callsOn]
  rw [hcalls] at hb
  simp [callsOn, nullDebugRequests] at hb
  rw [hi]
  exact nullDebugRequests_take_no_delete m (by omega)

theorem executeAioController_cancel_no_delete (ctx : Context)
    (c2 : AioControllerServiceClient)
    (n : Nat) (hn : ctx.cancelAfter = some n) (hc : c2.HonoursCancel) (h4 : n ≤ 4) :
    ∀ r ∈ (executeAioController ctx c2 []).issued [], r.op ≠ .delete := by
  obtain ⟨m, _, _, hcalls, _⟩ := executeAioController_shape ctx c2 []
  have hb := (executeAioController_cancel_bound ctx c2 [] n hn hc).1
  have hi : (executeAioController ctx c2 []).issued [] = aioRequests.take m := by
    simp only [Run.issued, hcalls, drop_length_append_calls, map_req_callsOn]
  rw [hcalls] at hb
  simp [callsOn, aioRequests] at hb
  rw [hi]
  exact aioRequests_take_no_delete m (by omega)

theorem executeNVMfRemoteController_cancel_no_delete (LookupIP : Resolver) (ctx : Context)
    (c4 : NVMfRemoteControllerServiceClient)
    (n : Nat) (hn : ctx.cancelAfter = some n) (hc : c4.HonoursCancel) (h4 : n ≤ 4) :
    ∀ r ∈ (executeNVMfRemoteController LookupIP ctx c4 []).issued [], r.op ≠ .delete := by
  obtain ⟨m, _, hcalls, _⟩ := executeNVMfRemoteController_shape LookupIP ctx c4 []
  have hb := (executeNVMfRemoteController_cancel_bound LookupIP ctx c4 [] n hn hc).1
  have hi : (executeNVMfRemoteController LookupIP ctx c4 []).issued [] =
      (nvmfRequests (lookupTraddr LookupIP)).take m := by
    simp only [Run.issued, hcalls, drop_length_append_calls, map_req_callsOn]
  rw [hcalls] at hb
  simp [callsOn, nvmfRequests] at hb
  rw [hi]
  exact nvmfRequests_take_no_delete _ m (by omega)

/-- Every call `DoBackend` makes carries the context it was given. -/
theorem DoBackend_calls_ctx (LookupIP : Resolver) (ctx : Context) (conn : ClientConn)
    (h0 : List Call) :
    ∀ c ∈ (DoBackend LookupIP ctx conn h0).calls.drop h0.length, c.ctx = ctx := by
  obtain ⟨n1, _, hc1, _⟩ := executeNVMfRemoteController_shape LookupIP ctx conn.nvme h0
  obtain ⟨n2, _, _, hc2, _⟩ := executeNullDebug_shape ctx conn.null
    (executeNVMfRemoteController LookupIP ctx conn.nvme h0).calls
  obtain ⟨n3, _, _, hc3, _⟩ := executeAioController_shape ctx conn.aio
    (executeNullDebug ctx conn.null
      (executeNVMfRemoteController LookupIP ctx conn.nvme h0).calls).calls
  intro c hc
  rcases DoBackend_cases LookupIP ctx conn h0 with ⟨hD, _⟩ | ⟨_, hD, _⟩ | ⟨_, _, hD⟩
  · rw [hD, hc1, drop_length_append_calls] at hc
    exact (mem_callsOn_take hc).1
  · rw [hD, hc2, hc1, List.append_assoc, drop_length_append_calls, List.mem_append] at hc
    rcases hc with hc | hc <;> exact (mem_callsOn_take hc).1
  · rw [hD, hc3, hc2, hc1, List.append_assoc, List.append_assoc, drop_length_append_calls,
      List.mem_append, List.mem_append] at hc
    rcases hc with hc | hc | hc <;> exact (mem_callsOn_take hc).1

/-- With clients that fail calls on a cancelled context, `DoBackend` makes at most
`n + 1` calls when the context is cancelled after `n`, and no Delete when `n ≤ 4`. -/
theorem DoBackend_cancel_bound (LookupIP : Resolver) (ctx : Context) (conn : ClientConn)
    (n : Nat) (hn : ctx.cancelAfter = some n) (h4 : conn.nvme.HonoursCancel)
    (h1 : conn.null.HonoursCancel) (h2 : conn.aio.HonoursCancel) :
    (DoBackend LookupIP ctx conn []).calls.length ≤ n + 1 ∧
    (n ≤ 4 → ∀ c ∈ (DoBackend LookupIP ctx conn []).calls, c.req.op ≠ .delete) := by
  have b4 := executeNVMfRemoteController_cancel_bound LookupIP ctx conn.nvme [] n hn h4
  have b1 := executeNullDebug_cancel_bound ctx conn.null
    (executeNVMfRemoteController LookupIP ctx conn.nvme []).calls n hn h1
  have b2 := executeAioController_cancel_bound ctx conn.aio
    (executeNullDebug ctx conn.null
      (executeNVMfRemoteController LookupIP ctx conn.nvme []).calls).calls n hn h2
  obtain ⟨m1, hm1, hc1, _⟩ := executeNVMfRemoteController_shape LookupIP ctx conn.nvme []
  obtain ⟨m2, _, hm2, hc2, _⟩ := executeNullDebug_shape ctx conn.null
    (executeNVMfRemoteController LookupIP ctx conn.nvme []).calls
  have l1 : (executeNVMfRemoteController LookupIP ctx conn.nvme []).calls.length ≤ 6 := by
    rw [hc1]; simp [callsOn, nvmfRequests]
  have l2 : (executeNullDebug ctx conn.null
      (executeNVMfRemoteController LookupIP ctx conn.nvme []).calls).calls.length ≤
      (executeNVMfRemoteController LookupIP ctx conn.nvme []).calls.length + 6 := by
    rw [hc2]; simp [callsOn, nullDebugRequests]
  simp only [List.length_nil, Nat.zero_add] at b4
  rcases DoBackend_cases LookupIP ctx conn [] with ⟨hD, _⟩ | ⟨hN, hD, _⟩ | ⟨hN, hU, hD⟩
  · rw [hD]
    refine ⟨by have := b4.1; omega, ?_⟩
    intro hle c hc
    have := executeNVMfRemoteController_cancel_no_delete LookupIP ctx conn.nvme n hn h4 hle
      c.req (by simp only [Run.issued, List.length_nil, List.drop_zero]; exact List.mem_map_of_mem _ hc)
    exact this
  · have := b4.2 hN
    rw [hD]
    refine ⟨by have := b1.1; omega, fun hle => by omega⟩
  · have := b4.2 hN
    have := b1.2 hU
    rw [hD]
    refine ⟨by have := b2.1; omega, fun hle => by omega⟩

theorem cancelReply_isSome {α : Type} (ctx : Context) (h : List Call) (resp : Option α)
    (hE : (ctx.Err h.length).isSome = true) : (cancelReply ctx h resp).2.isSome = true := by
  unfold cancelReply
  split
  · rfl
  · rename_i hnone
    rw [hnone] at hE
    exact absurd hE (by decide)

theorem cancelAwareNVMfClient_honours : cancelAwareNVMfClient.HonoursCancel := by
  intro h ctx hE
  refine ⟨?_, ?_, ?_, ?_, ?_, ?_⟩ <;> intro q <;> exact cancelReply_isSome ctx h _ hE

theorem cancelAwareNullClient_honours : cancelAwareNullClient.HonoursCancel := by
  intro h ctx hE
  refine ⟨?_, ?_, ?_, ?_, ?_, ?_⟩ <;> intro q <;> exact cancelReply_isSome ctx h _ hE

theorem cancelAwareAioClient_honours : cancelAwareAioClient.HonoursCancel := by
  intro h ctx hE
  refine ⟨?_, ?_, ?_, ?_, ?_, ?_⟩ <;> intro q <;> exact cancelReply_isSome ctx h _ hE

/-- C8, refuted at an explicit input.  The context is cancelled before the first
call, hence before Stats is issued (`Err` is set at clock 4), and the null-debug
client answers every call without looking at the context: the lifecycle issues all
six requests, Delete included. -/
theorem executeNullDebug_ignores_cancellation :
    ¬ (((cancelledAfter 0).Err 4).isSome = true →
        ∀ r ∈ (executeNullDebug (cancelledAfter 0)
            (scriptedNullClient [] (some { Handle := some ⟨"OpiNull9"⟩ }) (some {})) []).issued [],
          r.op ≠ .delete) := by
  decide

/-- C8, amended.  Every call `DoBackend` makes carries the context the caller passed.
The lifecycles never inspect the context themselves; a cancellation stops a run
only through the client.  When the context is cancelled once `n` calls have
completed and the clients fail every call made on a cancelled context, `DoBackend`
and each lifecycle started on an empty record make at most `n + 1` calls, and when
`n ≤ 4` (cancelled before Stats is issued) none of them issues a Delete. -/
theorem cancellation_stops_honouring_clients (LookupIP : Resolver) (ctx : Context)
    (conn : ClientConn) (n : Nat) :
    (∀ h0, ∀ c ∈ (DoBackend LookupIP ctx conn h0).calls.drop h0.length, c.ctx = ctx) ∧
    (ctx.cancelAfter = some n → conn.nvme.HonoursCancel → conn.null.HonoursCancel →
      conn.aio.HonoursCancel →
        (DoBackend LookupIP ctx conn []).calls.length ≤ n + 1 ∧
        (executeNVMfRemoteController LookupIP ctx conn.nvme []).calls.length ≤ n + 1 ∧
        (executeNullDebug ctx conn.null []).calls.length ≤ n + 1 ∧
        (executeAioController ctx conn.aio []).calls.length ≤ n + 1 ∧
        (n ≤ 4 →
          (∀ c ∈ (DoBackend LookupIP ctx conn []).calls, c.req.op ≠ .delete) ∧
          (∀ r ∈ (executeNVMfRemoteController LookupIP ctx conn.nvme []).issued [],
            r.op ≠ .delete) ∧
          (∀ r ∈ (executeNullDebug ctx conn.null []).issued [], r.op ≠ .delete) ∧
          (∀ r ∈ (executeAioController ctx conn.aio []).issued [], r.op ≠ .delete))) := by
  refine ⟨fun h0 => DoBackend_calls_ctx LookupIP ctx conn h0, ?_⟩
  intro hn h4 h1 h2
  have bD := DoBackend_cancel_bound LookupIP ctx conn n hn h4 h1 h2
  have b4 := (executeNVMfRemoteController_cancel_bound LookupIP ctx conn.nvme [] n hn h4).1
  have b1 := (executeNullDebug_cancel_bound ctx conn.null [] n hn h1).1
  have b2 := (executeAioController_cancel_bound ctx conn.aio [] n hn h2).1
  simp only [List.length_nil, Nat.zero_add] at b4 b1 b2
  refine ⟨bD.1, by omega, by omega, by omega, fun hle => ⟨bD.2 hle, ?_, ?_, ?_⟩⟩
  · exact executeNVMfRemoteController_cancel_no_delete LookupIP ctx conn.nvme n hn h4 hle
  · exact executeNullDebug_cancel_no_delete ctx conn.null n hn h1 hle
  · exact executeAioController_cancel_no_delete ctx conn.aio n hn h2 hle

/-- C8 amended, at an explicit input: with the context cancelled once four calls have
completed and clients that check the context, the null-debug lifecycle makes five
calls (Stats is the one that fails), and `DoBackend` makes at most five. -/
theorem cancellation_stops_honouring_clients_witness :
    executeNullDebug (cancelledAfter 4) cancelAwareNullClient [] =
      ⟨callsOn (cancelledAfter 4) (nullDebugRequests.take 5),
        .returned (some ⟨"context canceled"⟩)⟩ ∧
    (DoBackend oneAddress (cancelledAfter 4) cancelAwareConn []).calls.length ≤ 4 + 1 ∧
    (executeNullDebug (cancelledAfter 4) cancelAwareConn.null []).calls.length ≤ 4 + 1 :=
  have h := (cancellation_stops_honouring_clients oneAddress (cancelledAfter 4)
    cancelAwareConn 4).2 rfl cancelAwareNVMfClient_honours cancelAwareNullClient_honours
    cancelAwareAioClient_honours
  ⟨by rfl, h.1, h.2.2.1⟩

/-! ## C9: the mock records the call and returns the programmed result -/

/-- Replacing the expectation that `On` appended last leaves the earlier ones. -/
theorem set_length_append_singleton (l : List Expectation) (x y : Expectation) :
    (l ++ [x]).set l.length y = l ++ [y] := by
  induction l with
  | nil => rfl
  | cons a l ih => simp [ih]

/-- An expectation registered last is the one `findExpectedCall` yields when it shows
no difference with the call and no earlier expectation takes the call. -/
theorem findExpectedCall_registered (m : Mock) (y : Expectation) (args : List Any)
    (hnew : m.findExpectedCall "InventoryGet" args = none)
    (hm : y.Method = "InventoryGet") (hacc : Arguments.Diff y.Arguments args = 0) :
    Mock.findExpectedCall { m with ExpectedCalls := m.ExpectedCalls ++ [y] }
      "InventoryGet" args = some y := by
  simp only [Mock.findExpectedCall] at hnew ⊢
  rw [List.find?_append, hnew]
  simp [List.find?, hm, hacc]

/-- What `InventoryGet` does on a mock whose first expectation without differences is
`x`: it records the call, and the return arguments of `x` decide the result. -/
theorem InventoryGet_of_found (m : Mock) (x : Expectation)
    (ctx : Option Context) (in_ : Option InventoryGetRequest)
    (opts : List (Option CallOption))
    (hx : m.findExpectedCall "InventoryGet" (calledWith ctx in_ opts) = some x) :
    (InventoryGet m ctx in_ opts).1 = m.recorded ctx in_ opts ∧
    (∀ run, x.ReturnArguments = [Any.funcBoth run] →
      (InventoryGet m ctx in_ opts).2 = .ok (run ctx in_ opts)) ∧
    (∀ a0 a1, x.ReturnArguments = [Any.response a0, Any.ofError a1] →
      (InventoryGet m ctx in_ opts).2 = .ok (a0, a1)) ∧
    (∀ a1, x.ReturnArguments = [Any.nil, Any.ofError a1] →
      (InventoryGet m ctx in_ opts).2 = .ok (none, a1)) := by
  have e : [Any.ofContext ctx, Any.request in_] ++ opts.map Any.ofCallOption =
      calledWith ctx in_ opts := rfl
  have hcalled : m.Called "InventoryGet" (calledWith ctx in_ opts) =
      (m.recorded ctx in_ opts, .ok x.ReturnArguments) := by
    simp only [Mock.Called, hx, Mock.recorded]
  refine ⟨?_, ?_, ?_, ?_⟩
  · simp only [InventoryGet, e, hcalled]
    repeat' split
    all_goals rfl
  · intro run hr
    simp only [InventoryGet, e, hcalled, hr]
    rfl
  · intro a0 a1 hr
    simp only [InventoryGet, e, hcalled, hr]
    cases a1 <;> rfl
  · intro a1 hr
    simp only [InventoryGet, e, hcalled, hr]
    cases a1 <;> rfl

/-- C9. For every `ctx`, `in` and `opts`, `InventoryGet` hands `Called` the argument
list `ctx`, `in`, then the elements of `opts` in their order, of length
`2 + len(opts)`.  On a mock programmed by `EXPECT().InventoryGet(ectx, ein, eopts...)`
followed by `Return(a0, a1)`, when that expectation shows no difference with the call
and no earlier expectation takes the call, `InventoryGet` adds exactly one
invocation with that argument list to the record and returns `(a0, a1)`; programmed
with `RunAndReturn(run)` instead, it records the same and returns
`run(ctx, in, opts...)`.  On any mock, when `x` is the first expectation without
differences, the call is recorded once and the return arguments of `x` decide the
result: a function of the full signature is called, a response (or a nil first
value) is paired with the error. -/
theorem InventoryGet_records_and_returns (m : Mock) (ectx ein : ExpectedArg)
    (eopts : List ExpectedArg) (ctx : Option Context) (in_ : Option InventoryGetRequest)
    (opts : List (Option CallOption)) (a0 : Option InventoryGetResponse)
    (a1 : Option GoError)
    (run : InventoryGetFunc (Option InventoryGetResponse × Option GoError))
    (hnew : m.findExpectedCall "InventoryGet" (calledWith ctx in_ opts) = none)
    (hacc : Arguments.Diff ([ectx, ein] ++ eopts) (calledWith ctx in_ opts) = 0) :
    (calledWith ctx in_ opts =
        Any.ofContext ctx :: Any.request in_ :: opts.map Any.ofCallOption ∧
      (calledWith ctx in_ opts).length = 2 + opts.length ∧
      ∀ i, (h : i < opts.length) →
        (calledWith ctx in_ opts)[i + 2]? = some (Any.ofCallOption (opts.get ⟨i, h⟩))) ∧
    InventoryGet ((Expecter.InventoryGet m ectx ein eopts).Return a0 a1).mock ctx in_ opts =
      (((Expecter.InventoryGet m ectx ein eopts).Return a0 a1).mock.recorded ctx in_ opts,
        .ok (a0, a1)) ∧
    InventoryGet ((Expecter.InventoryGet m ectx ein eopts).RunAndReturn run).mock ctx in_ opts =
      (((Expecter.InventoryGet m ectx ein eopts).RunAndReturn run).mock.recorded ctx in_ opts,
        .ok (run ctx in_ opts)) ∧
    (∀ (m' : Mock) (x : Expectation),
      m'.findExpectedCall "InventoryGet" (calledWith ctx in_ opts) = some x →
        (InventoryGet m' ctx in_ opts).1 = m'.recorded ctx in_ opts ∧
        (m'.recorded ctx in_ opts).Calls =
          m'.Calls ++ [⟨"InventoryGet", calledWith ctx in_ opts⟩] ∧
        (x.ReturnArguments = [Any.funcBoth run] →
          (InventoryGet m' ctx in_ opts).2 = .ok (run ctx in_ opts)) ∧
        (x.ReturnArguments = [Any.response a0, Any.ofError a1] →
          (InventoryGet m' ctx in_ opts).2 = .ok (a0, a1)) ∧
        (x.ReturnArguments = [Any.nil, Any.ofError a1] →
          (InventoryGet m' ctx in_ opts).2 = .ok (none, a1))) := by
  refine ⟨⟨rfl, by simp [calledWith]; omega, ?_⟩, ?_, ?_, ?_⟩
  · intro i h
    simp [calledWith, h]
  · have hf := findExpectedCall_registered m
      { Method := "InventoryGet", Arguments := [ectx, ein] ++ eopts,
        ReturnArguments := [Any.response a0, Any.ofError a1] }
      (calledWith ctx in_ opts) hnew rfl hacc
    have hm : ((Expecter.InventoryGet m ectx ein eopts).Return a0 a1).mock =
        { m with ExpectedCalls := m.ExpectedCalls ++
          [{ Method := "InventoryGet", Arguments := [ectx, ein] ++ eopts,
             ReturnArguments := [Any.response a0, Any.ofError a1] }] } := by
      simp only [InventorySvcClient_InventoryGet_Call.Return, Expecter.InventoryGet, Mock.On,
        Expectation.Return, set_length_append_singleton]
    rw [hm]
    have h := InventoryGet_of_found _ _ ctx in_ opts hf
    exact Prod.ext h.1 (h.2.2.1 a0 a1 rfl)
  · have hf := findExpectedCall_registered m
      { Method := "InventoryGet", Arguments := [ectx, ein] ++ eopts,
        ReturnArguments := [Any.funcBoth run] }
      (calledWith ctx in_ opts) hnew rfl hacc
    have hm : ((Expecter.InventoryGet m ectx ein eopts).RunAndReturn run).mock =
        { m with ExpectedCalls := m.ExpectedCalls ++
          [{ Method := "InventoryGet", Arguments := [ectx, ein] ++ eopts,
             ReturnArguments := [Any.funcBoth run] }] } := by
      simp only [InventorySvcClient_InventoryGet_Call.RunAndReturn, Expecter.InventoryGet,
        Mock.On, Expectation.Return, set_length_append_singleton]
    rw [hm]
    have h := InventoryGet_of_found _ _ ctx in_ opts hf
    exact Prod.ext h.1 (h.2.1 run rfl)
  · intro m' x hx
    have h := InventoryGet_of_found m' x ctx in_ opts hx
    exact ⟨h.1, rfl, h.2.1 run, h.2.2.1 a0 a1, h.2.2.2 a1⟩

/-- C9, at explicit inputs.  On a fresh mock programmed with three `Anything`
arguments and `Return(sampleResponse, unavailable)`, a call with one option and a
call without options (the third `Anything` then meets the missing argument) are
both recorded and return that pair.  Programmed with `RunAndReturn(countOptions)`,
a call without options returns what `countOptions` computes.  On the mock with two
expectations a call without options is answered by the first one. -/
theorem InventoryGet_records_and_returns_witness :
    ((InventoryGet (returningMock (some sampleResponse) (some unavailable))
        (some background) (some {}) [some ⟨"WaitForReady"⟩]).1.Calls.map
          (fun c => c.Arguments.length) = [3] ∧
      (InventoryGet (returningMock (some sampleResponse) (some unavailable))
        (some background) (some {}) [some ⟨"WaitForReady"⟩]).2 =
          .ok (some sampleResponse, some unavailable)) ∧
    ((InventoryGet (returningMock (some sampleResponse) (some unavailable))
        (some background) (some {}) []).1.Calls.map
          (fun c => c.Arguments.length) = [2] ∧
      (InventoryGet (returningMock (some sampleResponse) (some unavailable))
        (some background) (some {}) []).2 =
          .ok (some sampleResponse, some unavailable)) ∧
    (InventoryGet ((Expecter.InventoryGet freshMock (.value Anything) (.value Anything)
        []).RunAndReturn countOptions).mock (some background) none []).2 =
      .ok (some { body := "0" }, none) ∧
    (InventoryGet twoExpectationsMock (some background) (some {}) []).2 =
      .ok (some sampleResponse, none) :=
  have h1 := InventoryGet_records_and_returns freshMock (.value Anything) (.value Anything)
    [.value Anything] (some background) (some {}) [some ⟨"WaitForReady"⟩]
    (some sampleResponse) (some unavailable) countOptions (by rfl) (by rfl)
  have h2 := InventoryGet_records_and_returns freshMock (.value Anything) (.value Anything)
    [.value Anything] (some background) (some {}) []
    (some sampleResponse) (some unavailable) countOptions (by rfl) (by rfl)
  have h3 := InventoryGet_records_and_returns freshMock (.value Anything) (.value Anything)
    [] (some background) none [] none none countOptions (by rfl) (by rfl)
  have h4 := (InventoryGet_records_and_returns freshMock (.value Anything) (.value Anything)
    [] (some background) (some {}) [] (some sampleResponse) none countOptions
    (by rfl) (by rfl)).2.2.2 twoExpectationsMock
    { Method := "InventoryGet"
      Arguments := [.value Anything, .value Anything, .value Anything]
      ReturnArguments := [Any.response (some sampleResponse), Any.ofError none] } (by rfl)
  ⟨⟨(congrArg (fun r => r.1.Calls.map (fun c => c.Arguments.length)) h1.2.1).trans (by rfl),
     congrArg Prod.snd h1.2.1⟩,
   ⟨(congrArg (fun r => r.1.Calls.map (fun c => c.Arguments.length)) h2.2.1).trans (by rfl),
     congrArg Prod.snd h2.2.1⟩,
   congrArg Prod.snd h3.2.2.1,
   h4.2.2.2.1 rfl⟩

end Godpu
